import Mathlib

/-!
# byteps/sparse/communicator.h

A shallow embedding of the two local communicators of
`byteps/sparse/communicator.h` (`LocalGatherComm` and `LocalScatterComm`):
their constructors, `ExecAsync` and `Sync`.

The header is a thin layer over the gossip library and the CUDA runtime.  Every
call that leaves the header is recorded as an `Event` in a trace; the calls
whose results the header uses (`parse_plan`, `verify_plan`, `valid`,
`num_gpus`, `calcBufferLengths`, `cudaSetDevice`, `cudaMalloc`) are parameters
collected in `Env`, so every theorem holds for all of their behaviours.

Machine integers: `size_t` values are naturals, the one multiplication of the
header is reduced modulo `2 ^ 64`; the loop counter is an `int`, and stepping it
past `INT_MAX` is undefined behaviour.
-/

namespace byteps.sparse

/-- Device pointer (`data_t*`); `0` is the null pointer. -/
abbrev Ptr := Nat

/-- Values of `data_t = float`.  The header never computes with them, it only
hands buffers on, so they are kept as opaque values. -/
abbrev data_t := Int

/-- The null pointer a `std::vector<data_t*>::resize` fills new slots with. -/
def nullptr : Ptr := 0

/-- Number of values of `size_t` (64 bit). -/
def SIZE_T_MOD : Nat := 2 ^ 64

/-- Largest value of `int` (32 bit). -/
def INT_MAX : Nat := 2147483647

/-- The constant `sizeof(data_t)` for `data_t = float`. -/
def sizeof_data_t : Nat := 4

/-- The two collectives: `gossip::gather` and `gossip::scatter`. -/
inductive Role where
  | gather
  | scatter
  deriving DecidableEq, Repr

/-- Calls leaving the header, in the order they are made. -/
inductive Event where
  | parse_plan (planfile_name : String)
  | verify_plan (role : Role)
  | context_create (num_gpu : Nat)
  | collective_create (role : Role)
  | calcBufferLengths (role : Role) (send_counts : List Nat)
  | print (lens : List Nat)
  | get_device_id (gpu : Nat)
  | cudaSetDevice (device : Nat)
  | cudaMalloc (slot : Nat) (bytes : Nat) (res : Option Ptr)
  | CUERR
  | sync_hard
  | gather_execAsync (srcs : List Ptr) (srcs_lens : List Nat) (dst : Ptr) (dst_len : Nat)
      (bufs : List Ptr) (bufs_lens : List Nat) (send_counts : List Nat)
  | scatter_execAsync (src : Ptr) (src_len : Nat) (dsts : List Ptr) (dsts_lens : List Nat)
      (bufs : List Ptr) (bufs_lens : List Nat) (send_counts : List Nat)
  | sync (role : Role)
  deriving DecidableEq, Repr

/-- A transfer that has been enqueued on the device streams and has not been
waited for. -/
inductive Transfer where
  | gather (srcs : List Ptr) (send_counts : List Nat) (dst : Ptr)
  | scatter (src : Ptr) (send_counts : List Nat) (dsts : List Ptr)
  deriving DecidableEq, Repr

/-- State of the CUDA runtime and the devices: the last error of the host
thread (`true` when an error is recorded), the contents of the caller-visible
buffers, and the transfers in flight. -/
structure Runtime where
  lastError : Bool
  mem : Ptr → List data_t
  pending : List Transfer

/-- Runtime state together with the trace of calls made so far. -/
structure World where
  rt : Runtime
  trace : List Event

/-- Append one call to the trace. -/
def World.emit (w : World) (e : Event) : World :=
  { w with trace := w.trace ++ [e] }

/-- Ways a constructor does not return: a failed `CHECK` or `CHECK_EQ` (fatal
assertions), the exit of `CUERR`, a failed `get_device_id`, and undefined
behaviour (an index outside a vector, overflow of the `int` loop counter). -/
inductive Failure where
  | check_failed
  | cuda_error
  | device_index_out_of_range
  | undefined_behaviour
  deriving DecidableEq, Repr

/-- The external operations the header calls, for a plan type `Plan`
(`gossip::transfer_plan_t`).  `cudaSetDevice` and `cudaMalloc` may depend on
everything that happened before (the trace). -/
structure Env (Plan : Type) where
  parse_plan : String → Plan
  verify_plan : Role → Plan → Plan
  valid : Plan → Bool
  num_gpus : Plan → Nat
  device_id : Nat → Nat
  calcBufferLengths : Role → Plan → List Nat → List Nat
  cudaSetDevice : List Event → Nat → Bool
  cudaMalloc : List Event → Nat → Option Ptr

/-- Modelled from the spec: `gossip::context_t` is not in the header.  It owns
the logical-to-physical device-id mapping of `num_gpus` devices. -/
structure context_t where
  num_gpus : Nat
  device_ids : List Nat

/-- Modelled from the spec: `context_t(num_gpu)` assigns the logical indices
`0 .. num_gpu-1`; the physical ids are fixed here. -/
def context_t.create {Plan : Type} (env : Env Plan) (num_gpu : Nat) : context_t :=
  { num_gpus := num_gpu, device_ids := (List.range num_gpu).map env.device_id }

/-- Modelled from the spec: `context_t::get_device_id` is a pure lookup that
fails when the index is out of range. -/
def context_t.get_device_id (c : context_t) (gpu : Nat) : Option Nat :=
  if gpu < c.num_gpus then c.device_ids[gpu]? else none

/-- Overwrite the front of buffer `p` with `data`. -/
def write (mem : Ptr → List data_t) (p : Ptr) (data : List data_t) : Ptr → List data_t :=
  fun q => if q = p then data ++ (mem p).drop data.length else mem q

/-- Modelled from the spec: what a gather delivers, the first `send_counts[i]`
elements of source `i`, for the devices in index order. -/
def gathered (mem : Ptr → List data_t) (srcs : List Ptr) (send_counts : List Nat) :
    List data_t :=
  (List.zipWith (fun p c => (mem p).take c) srcs send_counts).flatten

/-- Modelled from the spec: a scatter splits the source in device order,
destination `i` receives the next `send_counts[i]` elements. -/
def scattered (src : List data_t) : List Nat → List Ptr → (Ptr → List data_t) →
    Ptr → List data_t
  | c :: cs, d :: ds, mem => scattered (src.drop c) cs ds (write mem d (src.take c))
  | _, _, mem => mem

/-- Modelled from the spec: the effect of one completed transfer on the
sources and destinations (gossip's copy schedule is not in the header; the
staging buffers are scratch space whose contents are not tracked). -/
def Transfer.apply (mem : Ptr → List data_t) : Transfer → Ptr → List data_t
  | .gather srcs send_counts dst => write mem dst (gathered mem srcs send_counts)
  | .scatter src send_counts dsts => scattered (mem src) send_counts dsts mem

/-- Modelled from the spec: waiting for the streams completes every transfer in
flight, in issue order, and leaves nothing pending. -/
def Runtime.drain (rt : Runtime) : Runtime :=
  { rt with mem := rt.pending.foldl Transfer.apply rt.mem, pending := [] }

/-- Modelled from the spec: `context_t::sync_hard` blocks until every device
queue is empty. -/
def context_t.sync_hard (_c : context_t) (w : World) : World :=
  { rt := w.rt.drain, trace := w.trace ++ [Event.sync_hard] }

/-- The objects `gossip::gather_t` and `gossip::scatter_t`: a context and a
transfer plan. -/
structure collective_t (Plan : Type) where
  role : Role
  context : context_t
  transfer_plan : Plan

/-- Modelled from the spec: `gather_t::execAsync` enqueues the copies and
returns without waiting. -/
def collective_t.gather_execAsync {Plan : Type} (_g : collective_t Plan)
    (srcs : List Ptr) (srcs_lens : List Nat) (dst : Ptr) (dst_len : Nat)
    (bufs : List Ptr) (bufs_lens : List Nat) (send_counts : List Nat) (w : World) : World :=
  { rt := { w.rt with pending := w.rt.pending ++ [Transfer.gather srcs send_counts dst] },
    trace := w.trace ++
      [Event.gather_execAsync srcs srcs_lens dst dst_len bufs bufs_lens send_counts] }

/-- Modelled from the spec: `scatter_t::execAsync` enqueues the copies and
returns without waiting. -/
def collective_t.scatter_execAsync {Plan : Type} (_g : collective_t Plan)
    (src : Ptr) (src_len : Nat) (dsts : List Ptr) (dsts_lens : List Nat)
    (bufs : List Ptr) (bufs_lens : List Nat) (send_counts : List Nat) (w : World) : World :=
  { rt := { w.rt with pending := w.rt.pending ++ [Transfer.scatter src send_counts dsts] },
    trace := w.trace ++
      [Event.scatter_execAsync src src_len dsts dsts_lens bufs bufs_lens send_counts] }

/-- Modelled from the spec: `gather_t::sync` and `scatter_t::sync` block until
the streams have drained. -/
def collective_t.sync {Plan : Type} (g : collective_t Plan) (w : World) : World :=
  { rt := w.rt.drain, trace := w.trace ++ [Event.sync g.role] }

/-- The call `cudaSetDevice(device)`: its return value is dropped by the
header; a failure stays recorded as the last error. -/
def cudaSetDevice {Plan : Type} (env : Env Plan) (device : Nat) (w : World) : World :=
  { rt := { w.rt with lastError := w.rt.lastError || !env.cudaSetDevice w.trace device },
    trace := w.trace ++ [Event.cudaSetDevice device] }

/-- The call `cudaMalloc(&bufs_[slot], bytes)`: its return value is dropped by
the header; a failure stays recorded as the last error and leaves the slot as
it was. -/
def cudaMalloc {Plan : Type} (env : Env Plan) (slot : Nat) (bytes : Nat) (w : World) :
    Option Ptr × World :=
  let res := env.cudaMalloc w.trace bytes
  (res, { rt := { w.rt with lastError := w.rt.lastError || res.isNone },
          trace := w.trace ++ [Event.cudaMalloc slot bytes res] })

/-- Modelled from the spec: the macro `CUERR` of cuda_helpers.cuh is not in the
header.  It reads (and thereby clears) the last error and terminates the
process when one is recorded. -/
def CUERR (w : World) : Except (Failure × World) World :=
  let w1 : World := { rt := { w.rt with lastError := false }, trace := w.trace ++ [Event.CUERR] }
  if w.rt.lastError then .error (Failure.cuda_error, w1) else .ok w1

/-- The byte count `sizeof(data_t) * len` in `size_t` arithmetic. -/
def alloc_bytes (len : Nat) : Nat :=
  (sizeof_data_t * len) % SIZE_T_MOD

/-- The vectors `bufs_` and `bufs_lens_` during construction. -/
structure Staging where
  bufs_ : List Ptr
  bufs_lens_ : List Nat
  w : World

/-- One pass through the body of the allocation loop, lines 67-69 (gather) and
122-124 (scatter), followed by `++gpu`.  An index outside a vector and an
overflow of the `int` counter are undefined behaviour. -/
def alloc_step {Plan : Type} (env : Env Plan) (context_ : context_t)
    (bufs_lens_calc : List Nat) (st : Staging) (gpu : Nat) :
    Except (Failure × World) Staging :=
  match bufs_lens_calc[gpu]? with
  | none => .error (Failure.undefined_behaviour, st.w)
  | some len =>
    if st.bufs_lens_.length ≤ gpu then .error (Failure.undefined_behaviour, st.w) else
    let bufs_lens_ := st.bufs_lens_.set gpu len
    let w1 := st.w.emit (Event.get_device_id gpu)
    match context_.get_device_id gpu with
    | none => .error (Failure.device_index_out_of_range, w1)
    | some device =>
      let w2 := cudaSetDevice env device w1
      if st.bufs_.length ≤ gpu then .error (Failure.undefined_behaviour, w2) else
      match bufs_lens_[gpu]? with
      | none => .error (Failure.undefined_behaviour, w2)
      | some n =>
        let r := cudaMalloc env gpu (alloc_bytes n) w2
        let bufs_ := match r.1 with
          | some p => st.bufs_.set gpu p
          | none => st.bufs_
        if gpu = INT_MAX then .error (Failure.undefined_behaviour, r.2) else
        .ok { bufs_ := bufs_, bufs_lens_ := bufs_lens_, w := r.2 }

/-- The loop `for (int gpu = 0; gpu < num_gpu; ++gpu)` of lines 66-70 and
121-125. -/
def alloc_loop {Plan : Type} (env : Env Plan) (context_ : context_t)
    (bufs_lens_calc : List Nat) (num_gpu : Nat) (st : Staging) :
    Except (Failure × World) Staging :=
  (List.range num_gpu).foldlM (alloc_step env context_ bufs_lens_calc) st

/-- What both constructors build apart from the caller's buffers. -/
structure Core (Plan : Type) where
  context_ : context_t
  collective_ : collective_t Plan
  bufs_ : List Ptr
  bufs_lens_ : List Nat

/-- The constructor bodies, lines 49-71 (gather) and 104-126 (scatter); they
differ only in the namespace of `verify_plan` and the collective built. -/
def construct {Plan : Type} (env : Env Plan) (role : Role) (planfile_name : String)
    (num_gpu : Nat) (send_counts_ : List Nat) (w : World) :
    Except (Failure × World) (Core Plan × World) :=
  let transfer_plan := env.parse_plan planfile_name
  let w := w.emit (Event.parse_plan planfile_name)
  let transfer_plan := env.verify_plan role transfer_plan
  let w := w.emit (Event.verify_plan role)
  if env.valid transfer_plan = false then .error (Failure.check_failed, w) else
  if env.num_gpus transfer_plan ≠ num_gpu then .error (Failure.check_failed, w) else
  let context_ := context_t.create env num_gpu
  let w := w.emit (Event.context_create num_gpu)
  let collective_ : collective_t Plan :=
    { role := role, context := context_, transfer_plan := transfer_plan }
  let w := w.emit (Event.collective_create role)
  let bufs_lens_calc := env.calcBufferLengths role transfer_plan send_counts_
  let w := w.emit (Event.calcBufferLengths role send_counts_)
  let w := w.emit (Event.print bufs_lens_calc)
  let bufs_ := List.replicate num_gpu nullptr
  let bufs_lens_ := List.replicate num_gpu 0
  match alloc_loop env context_ bufs_lens_calc num_gpu
      { bufs_ := bufs_, bufs_lens_ := bufs_lens_, w := w } with
  | .error e => .error e
  | .ok st =>
    match CUERR st.w with
    | .error e => .error e
    | .ok w =>
      .ok ({ context_ := context_, collective_ := collective_,
             bufs_ := st.bufs_, bufs_lens_ := st.bufs_lens_ },
           context_.sync_hard w)

/-- Fields of `LocalGatherComm`. -/
structure LocalGatherComm (Plan : Type) where
  context_ : context_t
  gather_ : collective_t Plan
  srcs_ : List Ptr
  srcs_lens_ : List Nat
  send_counts_ : List Nat
  dst_ : Ptr
  dst_len_ : Nat
  bufs_ : List Ptr
  bufs_lens_ : List Nat

/-- Fields of `LocalScatterComm`. -/
structure LocalScatterComm (Plan : Type) where
  context_ : context_t
  scatter_ : collective_t Plan
  src_ : Ptr
  src_len_ : Nat
  send_counts_ : List Nat
  dsts_ : List Ptr
  dsts_lens_ : List Nat
  bufs_ : List Ptr
  bufs_lens_ : List Nat

/-- `LocalGatherComm::LocalGatherComm`, lines 45-72. -/
def LocalGatherComm.ctor {Plan : Type} (env : Env Plan) (planfile_name : String)
    (num_gpu : Nat) (srcs : List Ptr) (srcs_lens : List Nat) (send_counts : List Nat)
    (dst : Ptr) (dst_len : Nat) (w : World) :
    Except (Failure × World) (LocalGatherComm Plan × World) :=
  match construct env Role.gather planfile_name num_gpu send_counts w with
  | .error e => .error e
  | .ok (c, w1) =>
    .ok ({ context_ := c.context_, gather_ := c.collective_, srcs_ := srcs,
           srcs_lens_ := srcs_lens, send_counts_ := send_counts, dst_ := dst,
           dst_len_ := dst_len, bufs_ := c.bufs_, bufs_lens_ := c.bufs_lens_ }, w1)

/-- `LocalScatterComm::LocalScatterComm`, lines 100-127. -/
def LocalScatterComm.ctor {Plan : Type} (env : Env Plan) (planfile_name : String)
    (num_gpu : Nat) (src : Ptr) (src_len : Nat) (send_counts : List Nat)
    (dsts : List Ptr) (dsts_lens : List Nat) (w : World) :
    Except (Failure × World) (LocalScatterComm Plan × World) :=
  match construct env Role.scatter planfile_name num_gpu send_counts w with
  | .error e => .error e
  | .ok (c, w1) =>
    .ok ({ context_ := c.context_, scatter_ := c.collective_, src_ := src,
           src_len_ := src_len, send_counts_ := send_counts, dsts_ := dsts,
           dsts_lens_ := dsts_lens, bufs_ := c.bufs_, bufs_lens_ := c.bufs_lens_ }, w1)

/-- `LocalGatherComm::ExecAsync`, lines 74-76. -/
def LocalGatherComm.ExecAsync {Plan : Type} (s : LocalGatherComm Plan × World) :
    LocalGatherComm Plan × World :=
  (s.1, s.1.gather_.gather_execAsync s.1.srcs_ s.1.srcs_lens_ s.1.dst_ s.1.dst_len_
          s.1.bufs_ s.1.bufs_lens_ s.1.send_counts_ s.2)

/-- `LocalGatherComm::Sync`, lines 78-80. -/
def LocalGatherComm.Sync {Plan : Type} (s : LocalGatherComm Plan × World) :
    LocalGatherComm Plan × World :=
  (s.1, s.1.gather_.sync s.2)

/-- `LocalScatterComm::ExecAsync`, lines 129-131. -/
def LocalScatterComm.ExecAsync {Plan : Type} (s : LocalScatterComm Plan × World) :
    LocalScatterComm Plan × World :=
  (s.1, s.1.scatter_.scatter_execAsync s.1.src_ s.1.src_len_ s.1.dsts_ s.1.dsts_lens_
          s.1.bufs_ s.1.bufs_lens_ s.1.send_counts_ s.2)

/-- `LocalScatterComm::Sync`, lines 133-135. -/
def LocalScatterComm.Sync {Plan : Type} (s : LocalScatterComm Plan × World) :
    LocalScatterComm Plan × World :=
  (s.1, s.1.scatter_.sync s.2)

/-- The public operations of `SparseComm`. -/
inductive Op where
  | ExecAsync
  | Sync
  deriving DecidableEq, Repr

/-- Run a sequence of operations on a gather communicator. -/
def LocalGatherComm.run {Plan : Type} (s : LocalGatherComm Plan × World) :
    List Op → LocalGatherComm Plan × World
  | [] => s
  | Op.ExecAsync :: ops => LocalGatherComm.run (LocalGatherComm.ExecAsync s) ops
  | Op.Sync :: ops => LocalGatherComm.run (LocalGatherComm.Sync s) ops

/-- Run a sequence of operations on a scatter communicator. -/
def LocalScatterComm.run {Plan : Type} (s : LocalScatterComm Plan × World) :
    List Op → LocalScatterComm Plan × World
  | [] => s
  | Op.ExecAsync :: ops => LocalScatterComm.run (LocalScatterComm.ExecAsync s) ops
  | Op.Sync :: ops => LocalScatterComm.run (LocalScatterComm.Sync s) ops

/-- The three calls one pass of the loop makes for slot `gpu`. -/
def step_events (gpu device bytes : Nat) (res : Option Ptr) : List Event :=
  [Event.get_device_id gpu, Event.cudaSetDevice device, Event.cudaMalloc gpu bytes res]

/-- The calls of the first `n` passes of the loop, where `res i` is what the
allocation for slot `i` returned. -/
def loop_events (device_ids : List Nat) (lens : List Nat) (res : Nat → Option Ptr)
    (n : Nat) : List Event :=
  ((List.range n).map (fun i =>
    step_events i (device_ids.getD i 0) (alloc_bytes (lens.getD i 0)) (res i))).flatten

/-- What holds after `n` passes of the loop that started in `st0` and reached
`st`, where `res i` is what the allocation for slot `i` returned. -/
structure LoopInv (ctx : context_t) (lens : List Nat) (n : Nat) (st0 st : Staging)
    (res : Nat → Option Ptr) : Prop where
  trace_eq : st.w.trace = st0.w.trace ++ loop_events ctx.device_ids lens res n
  mem_eq : st.w.rt.mem = st0.w.rt.mem
  pending_eq : st.w.rt.pending = st0.w.rt.pending
  err_of_none : ∀ i, i < n → res i = none → st.w.rt.lastError = true
  err_mono : st0.w.rt.lastError = true → st.w.rt.lastError = true
  bufs_len : st.bufs_.length = st0.bufs_.length
  lens_len : st.bufs_lens_.length = st0.bufs_lens_.length
  bufs_done : ∀ i p, i < n → res i = some p → st.bufs_[i]? = some p
  lens_done : ∀ i, i < n → st.bufs_lens_[i]? = lens[i]?
  n_le_lens : n ≤ lens.length
  n_le_bufs : n ≤ st0.bufs_.length
  n_le_bufs_lens : n ≤ st0.bufs_lens_.length
  n_le_gpus : n ≤ ctx.num_gpus
  n_le_ids : n ≤ ctx.device_ids.length
  n_le_max : n ≤ INT_MAX

/-- The calls a constructor makes before the allocation loop. -/
def header_events (role : Role) (planfile_name : String) (num_gpu : Nat)
    (send_counts : List Nat) (bufs_lens_calc : List Nat) : List Event :=
  [Event.parse_plan planfile_name, Event.verify_plan role, Event.context_create num_gpu,
   Event.collective_create role, Event.calcBufferLengths role send_counts,
   Event.print bufs_lens_calc]

/-- The world a constructor run ends in, whether it returns or not. -/
def final_world {α : Type} : Except (Failure × World) (α × World) → World
  | .error (_, w) => w
  | .ok (_, w) => w

/-- The plan a constructor checks: the parsed plan after `verify_plan`. -/
def checked_plan {Plan : Type} (env : Env Plan) (role : Role) (planfile_name : String) : Plan :=
  env.verify_plan role (env.parse_plan planfile_name)

/-- The trace of a constructor run that returns, from the world `w0` it started
in, the lengths `lens` that `calcBufferLengths` returned and the buffers `bufs`
it allocated. -/
def ctor_trace {Plan : Type} (env : Env Plan) (role : Role) (planfile_name : String)
    (num_gpu : Nat) (send_counts : List Nat) (lens : List Nat) (bufs : List Ptr) : List Event :=
  header_events role planfile_name num_gpu send_counts lens ++
    loop_events ((List.range num_gpu).map env.device_id) lens (fun i => bufs[i]?) num_gpu ++
    [Event.CUERR, Event.sync_hard]

/-- What holds when `construct` returns `c` in world `w`. -/
structure ConstructPost {Plan : Type} (env : Env Plan) (role : Role) (planfile_name : String)
    (num_gpu : Nat) (send_counts : List Nat) (w0 : World) (c : Core Plan) (w : World) :
    Prop where
  valid : env.valid (checked_plan env role planfile_name) = true
  num_gpus : env.num_gpus (checked_plan env role planfile_name) = num_gpu
  context_eq : c.context_ = context_t.create env num_gpu
  collective_eq : c.collective_ =
    { role := role, context := context_t.create env num_gpu,
      transfer_plan := checked_plan env role planfile_name }
  bufs_len : c.bufs_.length = num_gpu
  lens_len : c.bufs_lens_.length = num_gpu
  lens_eq : ∀ i, i < num_gpu →
    c.bufs_lens_[i]? =
      (env.calcBufferLengths role (checked_plan env role planfile_name) send_counts)[i]?
  calc_len : num_gpu ≤
    (env.calcBufferLengths role (checked_plan env role planfile_name) send_counts).length
  int_ok : num_gpu ≤ INT_MAX
  trace_eq : w.trace = w0.trace ++ ctor_trace env role planfile_name num_gpu send_counts
    (env.calcBufferLengths role (checked_plan env role planfile_name) send_counts) c.bufs_
  no_error_before : w0.rt.lastError = false
  no_error : w.rt.lastError = false
  mem_eq : w.rt.mem = w0.rt.drain.mem
  pending_eq : w.rt.pending = []

/-- The calls a run made after the world `w0` it started in. -/
def emitted (w0 w : World) : List Event :=
  w.trace.drop w0.trace.length

/-- Whether a call is a `cudaMalloc`. -/
def Event.is_cudaMalloc : Event → Bool
  | .cudaMalloc _ _ _ => true
  | _ => false

/-- Whether a call is an `execAsync` of a collective. -/
def Event.is_execAsync : Event → Bool
  | .gather_execAsync _ _ _ _ _ _ _ => true
  | .scatter_execAsync _ _ _ _ _ _ _ => true
  | _ => false

/-- The device allocations in a trace. -/
def allocations (tr : List Event) : List Event :=
  tr.filter Event.is_cudaMalloc

/-! ## Concrete inputs -/

/-- A transfer plan reduced to what the header reads from it. -/
structure SamplePlan where
  num_gpus : Nat
  covers_all : Bool
  valid : Bool

/-- An environment with plan files for four, three and two devices,
in which every device call succeeds. -/
def sample_env : Env SamplePlan where
  parse_plan name :=
    { num_gpus := if name = "plan4.json" then 4 else if name = "plan3.json" then 3 else 2,
      covers_all := true, valid := false }
  verify_plan _ p := { p with valid := p.covers_all }
  valid p := p.valid
  num_gpus p := p.num_gpus
  device_id i := i
  calcBufferLengths _ _ send_counts := send_counts
  cudaSetDevice _ _ := true
  cudaMalloc tr _ := some (100 + tr.length)

/-- The same environment with devices that cannot allocate more than 8 bytes. -/
def small_env : Env SamplePlan :=
  { sample_env with
    cudaMalloc := fun tr bytes => if bytes ≤ 8 then some (100 + tr.length) else none }

/-- The same environment with a plan that asks for `2 ^ 62` elements on every
device. -/
def huge_env : Env SamplePlan :=
  { sample_env with calcBufferLengths := fun _ _ send_counts => send_counts.map (fun _ => 2 ^ 62) }

/-- A world with the buffers of the two-device scenarios: sources `10` and `11`
and destination `20` for the gather, source `30` and destinations `31` and `32`
for the scatter. -/
def sample_world : World :=
  { rt := { lastError := false,
            mem := fun p => if p = 10 then [1, 2] else if p = 11 then [3, 4]
              else if p = 20 then [0, 0, 0, 0] else if p = 30 then [1, 2, 3, 4]
              else if p = 31 then [0, 0] else if p = 32 then [0, 0] else [],
            pending := [] },
    trace := [] }

/-! ## The allocation loop -/





theorem alloc_loop_zero {Plan : Type} (env : Env Plan) (ctx : context_t) (lens : List Nat)
    (st0 : Staging) : alloc_loop env ctx lens 0 st0 = .ok st0 := by
  simp [alloc_loop, pure, Except.pure]

theorem alloc_loop_succ {Plan : Type} (env : Env Plan) (ctx : context_t) (lens : List Nat)
    (n : Nat) (st0 : Staging) :
    alloc_loop env ctx lens (n + 1) st0 =
      (match alloc_loop env ctx lens n st0 with
        | .error e => .error e
        | .ok st => alloc_step env ctx lens st n) := by
  unfold alloc_loop
  rw [List.range_succ, List.foldlM_append]
  cases hcase : List.foldlM (alloc_step env ctx lens) st0 (List.range n) with
  | error e => simp [bind, Except.bind]
  | ok st =>
    simp only [bind, Except.bind, List.foldlM_cons, List.foldlM_nil]
    cases alloc_step env ctx lens st n <;> rfl

theorem loop_events_succ (device_ids lens : List Nat) (res : Nat → Option Ptr) (n : Nat) :
    loop_events device_ids lens res (n + 1) =
      loop_events device_ids lens res n ++
        step_events n (device_ids.getD n 0) (alloc_bytes (lens.getD n 0)) (res n) := by
  simp [loop_events, List.range_succ]

theorem loop_events_congr (device_ids lens : List Nat) (res res1 : Nat → Option Ptr) (n : Nat)
    (h : ∀ i, i < n → res i = res1 i) :
    loop_events device_ids lens res n = loop_events device_ids lens res1 n := by
  unfold loop_events
  congr 1
  apply List.map_congr_left
  intro i hi
  rw [h i (List.mem_range.mp hi)]


/-- What a pass of the loop that returns has done. -/
theorem alloc_step_ok {Plan : Type} (env : Env Plan) (ctx : context_t) (lens : List Nat)
    (st st1 : Staging) (gpu : Nat) (h : alloc_step env ctx lens st gpu = .ok st1) :
    ∃ len device res,
      lens[gpu]? = some len ∧ gpu < st.bufs_lens_.length ∧ gpu < st.bufs_.length ∧
      gpu < ctx.num_gpus ∧ ctx.device_ids[gpu]? = some device ∧ gpu ≠ INT_MAX ∧
      st1.bufs_lens_ = st.bufs_lens_.set gpu len ∧
      st1.bufs_ = (match res with
        | some p => st.bufs_.set gpu p
        | none => st.bufs_) ∧
      st1.w.trace = st.w.trace ++ step_events gpu device (alloc_bytes len) res ∧
      st1.w.rt.mem = st.w.rt.mem ∧ st1.w.rt.pending = st.w.rt.pending ∧
      st1.w.rt.lastError =
        (st.w.rt.lastError ||
          !env.cudaSetDevice (st.w.trace ++ [Event.get_device_id gpu]) device ||
          res.isNone) := by
  unfold alloc_step at h
  split at h
  · exact absurd h (by simp)
  · rename_i len hlen
    split at h
    · exact absurd h (by simp)
    · rename_i hl
      simp only at h
      split at h
      · exact absurd h (by simp)
      · rename_i device hdev
        split at h
        · exact absurd h (by simp)
        · rename_i hb
          have hget : (st.bufs_lens_.set gpu len)[gpu]? = some len := by
            rw [List.getElem?_set_self]
            simp at hl
            simp [hl]
          rw [hget] at h
          simp only at h
          split at h
          · exact absurd h (by simp)
          · rename_i hmax
            simp only [Except.ok.injEq] at h
            subst h
            unfold context_t.get_device_id at hdev
            split at hdev
            · rename_i hlt
              refine ⟨len, device,
                env.cudaMalloc (st.w.trace ++ [Event.get_device_id gpu] ++
                  [Event.cudaSetDevice device]) (alloc_bytes len), hlen, by omega, by omega,
                hlt, hdev, hmax, rfl, ?_, ?_, rfl, rfl, ?_⟩
              · simp [cudaMalloc, cudaSetDevice, World.emit]
              · simp [cudaMalloc, cudaSetDevice, World.emit, step_events]
              · simp [cudaMalloc, cudaSetDevice, World.emit, Bool.or_assoc]
            · exact absurd hdev (by simp)

/-- The loop invariant: a loop that returns has made exactly the calls of
`loop_events`, kept every failure recorded, and filled the slots below `n`. -/
theorem alloc_loop_inv {Plan : Type} (env : Env Plan) (ctx : context_t) (lens : List Nat)
    (st0 : Staging) (n : Nat) :
    ∀ st, alloc_loop env ctx lens n st0 = .ok st → ∃ res, LoopInv ctx lens n st0 st res := by
  induction n with
  | zero =>
    intro st h
    rw [alloc_loop_zero] at h
    simp only [Except.ok.injEq] at h
    subst h
    exact ⟨fun _ => none, by
      constructor <;> simp [loop_events]⟩
  | succ n ih =>
    intro st1 h
    rw [alloc_loop_succ] at h
    cases hn : alloc_loop env ctx lens n st0 with
    | error e => rw [hn] at h; exact absurd h (by simp)
    | ok st =>
      rw [hn] at h
      simp only at h
      obtain ⟨res, inv⟩ := ih st hn
      obtain ⟨len, device, r, hlen, hl, hb, hg, hd, hmax, e1, e2, e3, e4, e5, e6⟩ :=
        alloc_step_ok env ctx lens st st1 n h
      have hlenlt : n < lens.length := by
        rcases Nat.lt_or_ge n lens.length with h1 | h1
        · exact h1
        · rw [List.getElem?_eq_none h1] at hlen; exact absurd hlen (by simp)
      have hdlt : n < ctx.device_ids.length := by
        rcases Nat.lt_or_ge n ctx.device_ids.length with h1 | h1
        · exact h1
        · rw [List.getElem?_eq_none h1] at hd; exact absurd hd (by simp)
      have hres : ∀ i, i < n → (fun i => if i = n then r else res i) i = res i := by
        intro i hi
        have : i ≠ n := by omega
        simp [this]
      refine ⟨fun i => if i = n then r else res i, ?_⟩
      constructor
      · rw [e3, inv.trace_eq, loop_events_succ, loop_events_congr _ _ _ res n hres]
        have h1 : ctx.device_ids.getD n 0 = device := by
          rw [List.getD_eq_getElem?_getD, hd]; rfl
        have h2 : lens.getD n 0 = len := by
          rw [List.getD_eq_getElem?_getD, hlen]; rfl
        rw [h1, h2]
        simp [List.append_assoc]
      · rw [e4, inv.mem_eq]
      · rw [e5, inv.pending_eq]
      · intro i hi hnone
        rw [e6]
        by_cases hin : i = n
        · subst hin
          simp only [if_true] at hnone
          simp [hnone]
        · simp only [hin, if_false] at hnone
          have := inv.err_of_none i (by omega) hnone
          simp [this]
      · intro h0
        rw [e6, inv.err_mono h0]
        simp
      · rw [e2]
        cases r <;> simp [inv.bufs_len]
      · rw [e1]; simp [inv.lens_len]
      · intro i p hi hsome
        rw [e2]
        by_cases hin : i = n
        · subst hin
          simp only [if_true] at hsome
          subst hsome
          simp only
          rw [List.getElem?_set_self hb]
        · simp only [hin, if_false] at hsome
          have := inv.bufs_done i p (by omega) hsome
          cases r with
          | none => simpa using this
          | some q =>
            simp only
            rw [List.getElem?_set_ne (Ne.symm hin)]
            exact this
      · intro i hi
        rw [e1]
        by_cases hin : i = n
        · subst hin
          rw [List.getElem?_set_self hl, hlen]
        · rw [List.getElem?_set_ne (Ne.symm hin)]
          exact inv.lens_done i (by omega)
      · omega
      · have := inv.bufs_len; omega
      · have := inv.lens_len; omega
      · omega
      · omega
      · have := inv.n_le_max; omega

/-- A pass of the loop returns when its four vector indices are in range, the
device index is in range and the counter can be stepped. -/
theorem alloc_step_total {Plan : Type} (env : Env Plan) (ctx : context_t) (lens : List Nat)
    (st : Staging) (gpu : Nat) (h1 : gpu < lens.length) (h2 : gpu < st.bufs_lens_.length)
    (h3 : gpu < st.bufs_.length) (h4 : gpu < ctx.num_gpus) (h5 : gpu < ctx.device_ids.length)
    (h6 : gpu ≠ INT_MAX) : ∃ st1, alloc_step env ctx lens st gpu = .ok st1 := by
  unfold alloc_step
  rw [List.getElem?_eq_getElem h1]
  simp only [Nat.not_le.mpr h2, if_false, Nat.not_le.mpr h3, context_t.get_device_id, h4, if_true,
    List.getElem?_eq_getElem h5, h6]
  rw [List.getElem?_set_self h2]
  exact ⟨_, rfl⟩

/-- The loop returns when every pass can. -/
theorem alloc_loop_total {Plan : Type} (env : Env Plan) (ctx : context_t) (lens : List Nat)
    (st0 : Staging) (n : Nat) (h1 : n ≤ lens.length) (h2 : n ≤ st0.bufs_lens_.length)
    (h3 : n ≤ st0.bufs_.length) (h4 : n ≤ ctx.num_gpus) (h5 : n ≤ ctx.device_ids.length)
    (h6 : n ≤ INT_MAX) : ∃ st, alloc_loop env ctx lens n st0 = .ok st := by
  induction n with
  | zero => exact ⟨st0, alloc_loop_zero env ctx lens st0⟩
  | succ n ih =>
    obtain ⟨st, hst⟩ := ih (by omega) (by omega) (by omega) (by omega) (by omega) (by omega)
    obtain ⟨res, inv⟩ := alloc_loop_inv env ctx lens st0 n st hst
    rw [alloc_loop_succ, hst]
    exact alloc_step_total env ctx lens st n (by omega) (by have := inv.lens_len; omega)
      (by have := inv.bufs_len; omega) (by omega) (by omega) (by omega)

theorem mem_loop_events (device_ids lens : List Nat) (res : Nat → Option Ptr) (n : Nat)
    (e : Event) :
    e ∈ loop_events device_ids lens res n ↔
      ∃ i, i < n ∧
        e ∈ step_events i (device_ids.getD i 0) (alloc_bytes (lens.getD i 0)) (res i) := by
  simp [loop_events, List.mem_flatten]

/-! ## The constructor body -/

/-- A plan that fails a check stops the constructor after `verify_plan`. -/
theorem construct_check_failed {Plan : Type} (env : Env Plan) (role : Role)
    (planfile_name : String) (num_gpu : Nat) (send_counts : List Nat) (w0 : World)
    (h : env.valid (checked_plan env role planfile_name) = false ∨
      env.num_gpus (checked_plan env role planfile_name) ≠ num_gpu) :
    construct env role planfile_name num_gpu send_counts w0 =
      .error (Failure.check_failed,
        { rt := w0.rt,
          trace := w0.trace ++ [Event.parse_plan planfile_name, Event.verify_plan role] }) := by
  unfold construct
  unfold checked_plan at h
  simp only [World.emit, List.append_assoc, List.singleton_append]
  rcases h with h | h
  · simp [h]
  · by_cases hv : env.valid (env.verify_plan role (env.parse_plan planfile_name)) = false
    · simp [hv]
    · simp [hv, h]

/-- Everything a returning constructor body has established. -/
theorem construct_ok {Plan : Type} (env : Env Plan) (role : Role) (planfile_name : String)
    (num_gpu : Nat) (send_counts : List Nat) (w0 : World) (c : Core Plan) (w : World)
    (h : construct env role planfile_name num_gpu send_counts w0 = .ok (c, w)) :
    ConstructPost env role planfile_name num_gpu send_counts w0 c w := by
  unfold construct at h
  simp only at h
  split at h
  · exact absurd h (by simp)
  rename_i hvalid
  split at h
  · exact absurd h (by simp)
  rename_i hnum
  split at h
  · exact absurd h (by simp)
  rename_i st hloop
  split at h
  · exact absurd h (by simp)
  rename_i w1 hcu
  simp only [Except.ok.injEq, Prod.mk.injEq] at h
  obtain ⟨hc, hw⟩ := h
  obtain ⟨res, inv⟩ := alloc_loop_inv env _ _ _ num_gpu st hloop
  unfold CUERR at hcu
  simp only at hcu
  split at hcu
  · exact absurd hcu (by simp)
  rename_i herr
  simp only [Except.ok.injEq] at hcu
  have herr1 : st.w.rt.lastError = false := by simpa using herr
  have hres : ∀ i, i < num_gpu → res i = st.bufs_[i]? := by
    intro i hi
    cases hr : res i with
    | none =>
      have := inv.err_of_none i hi hr
      rw [herr1] at this
      exact absurd this (by simp)
    | some q => exact (inv.bufs_done i q hi hr).symm
  subst hc hw hcu
  constructor
  · simpa [checked_plan] using hvalid
  · simpa [checked_plan] using hnum
  · rfl
  · rfl
  · simpa using inv.bufs_len
  · simpa using inv.lens_len
  · intro i hi
    exact inv.lens_done i hi
  · exact inv.n_le_lens
  · exact inv.n_le_max
  · simp only [context_t.sync_hard, ctor_trace, header_events, checked_plan]
    rw [inv.trace_eq, loop_events_congr _ _ res (fun i => st.bufs_[i]?) num_gpu hres]
    simp [World.emit, context_t.create, List.append_assoc]
  · cases h0 : w0.rt.lastError with
    | false => rfl
    | true =>
      have := inv.err_mono (by simpa [World.emit] using h0)
      rw [herr1] at this
      exact absurd this (by simp)
  · simp [context_t.sync_hard, Runtime.drain]
  · simp only [context_t.sync_hard, Runtime.drain]
    rw [inv.mem_eq, inv.pending_eq]
    simp [World.emit]
  · simp [context_t.sync_hard, Runtime.drain]

/-- With a plan that passes the checks, one length per device and a device
count an `int` can hold, the constructor body returns or stops in `CUERR`. -/
theorem construct_defined {Plan : Type} (env : Env Plan) (role : Role) (planfile_name : String)
    (num_gpu : Nat) (send_counts : List Nat) (w0 : World)
    (hvalid : env.valid (checked_plan env role planfile_name) = true)
    (hnum : env.num_gpus (checked_plan env role planfile_name) = num_gpu)
    (hlen : num_gpu ≤
      (env.calcBufferLengths role (checked_plan env role planfile_name) send_counts).length)
    (hint : num_gpu ≤ INT_MAX) :
    (∃ c w, construct env role planfile_name num_gpu send_counts w0 = .ok (c, w)) ∨
      (∃ w, construct env role planfile_name num_gpu send_counts w0 =
        .error (Failure.cuda_error, w)) := by
  unfold checked_plan at hvalid hnum hlen
  unfold construct
  simp only [hvalid, hnum]
  simp only [Bool.true_eq_false, if_false, ne_eq, not_true_eq_false]
  obtain ⟨st, hst⟩ := alloc_loop_total env (context_t.create env num_gpu)
    (env.calcBufferLengths role (env.verify_plan role (env.parse_plan planfile_name))
      send_counts)
    { bufs_ := List.replicate num_gpu nullptr, bufs_lens_ := List.replicate num_gpu 0,
      w := ((((((w0.emit (Event.parse_plan planfile_name)).emit (Event.verify_plan role)).emit
        (Event.context_create num_gpu)).emit (Event.collective_create role)).emit
        (Event.calcBufferLengths role send_counts)).emit
        (Event.print (env.calcBufferLengths role
          (env.verify_plan role (env.parse_plan planfile_name)) send_counts))) }
    num_gpu hlen (by simp) (by simp) (by simp [context_t.create])
    (by simp [context_t.create]) hint
  rw [hst]
  simp only [CUERR]
  cases st.w.rt.lastError with
  | false => left; exact ⟨_, _, rfl⟩
  | true => right; exact ⟨_, rfl⟩


/-! ## The two constructors -/

theorem gather_ctor_ok {Plan : Type} (env : Env Plan) (planfile_name : String) (num_gpu : Nat)
    (srcs : List Ptr) (srcs_lens send_counts : List Nat) (dst : Ptr) (dst_len : Nat)
    (w0 : World) (e : LocalGatherComm Plan) (w : World)
    (h : LocalGatherComm.ctor env planfile_name num_gpu srcs srcs_lens send_counts dst dst_len
      w0 = .ok (e, w)) :
    ∃ c, construct env Role.gather planfile_name num_gpu send_counts w0 = .ok (c, w) ∧
      e = { context_ := c.context_, gather_ := c.collective_, srcs_ := srcs,
            srcs_lens_ := srcs_lens, send_counts_ := send_counts, dst_ := dst,
            dst_len_ := dst_len, bufs_ := c.bufs_, bufs_lens_ := c.bufs_lens_ } := by
  unfold LocalGatherComm.ctor at h
  split at h
  · exact absurd h (by simp)
  · rename_i c w1 hc
    simp only [Except.ok.injEq, Prod.mk.injEq] at h
    obtain ⟨h1, h2⟩ := h
    subst h2
    exact ⟨c, hc, h1.symm⟩

theorem scatter_ctor_ok {Plan : Type} (env : Env Plan) (planfile_name : String) (num_gpu : Nat)
    (src : Ptr) (src_len : Nat) (send_counts : List Nat) (dsts : List Ptr)
    (dsts_lens : List Nat) (w0 : World) (e : LocalScatterComm Plan) (w : World)
    (h : LocalScatterComm.ctor env planfile_name num_gpu src src_len send_counts dsts dsts_lens
      w0 = .ok (e, w)) :
    ∃ c, construct env Role.scatter planfile_name num_gpu send_counts w0 = .ok (c, w) ∧
      e = { context_ := c.context_, scatter_ := c.collective_, src_ := src,
            src_len_ := src_len, send_counts_ := send_counts, dsts_ := dsts,
            dsts_lens_ := dsts_lens, bufs_ := c.bufs_, bufs_lens_ := c.bufs_lens_ } := by
  unfold LocalScatterComm.ctor at h
  split at h
  · exact absurd h (by simp)
  · rename_i c w1 hc
    simp only [Except.ok.injEq, Prod.mk.injEq] at h
    obtain ⟨h1, h2⟩ := h
    subst h2
    exact ⟨c, hc, h1.symm⟩

theorem gather_ctor_error {Plan : Type} (env : Env Plan) (planfile_name : String)
    (num_gpu : Nat) (srcs : List Ptr) (srcs_lens send_counts : List Nat) (dst : Ptr)
    (dst_len : Nat) (w0 : World) (x : Failure × World)
    (h : construct env Role.gather planfile_name num_gpu send_counts w0 = .error x) :
    LocalGatherComm.ctor env planfile_name num_gpu srcs srcs_lens send_counts dst dst_len w0 =
      .error x := by
  unfold LocalGatherComm.ctor
  rw [h]

theorem scatter_ctor_error {Plan : Type} (env : Env Plan) (planfile_name : String)
    (num_gpu : Nat) (src : Ptr) (src_len : Nat) (send_counts : List Nat) (dsts : List Ptr)
    (dsts_lens : List Nat) (w0 : World) (x : Failure × World)
    (h : construct env Role.scatter planfile_name num_gpu send_counts w0 = .error x) :
    LocalScatterComm.ctor env planfile_name num_gpu src src_len send_counts dsts dsts_lens w0 =
      .error x := by
  unfold LocalScatterComm.ctor
  rw [h]

theorem gather_ctor_final_world {Plan : Type} (env : Env Plan) (planfile_name : String)
    (num_gpu : Nat) (srcs : List Ptr) (srcs_lens send_counts : List Nat) (dst : Ptr)
    (dst_len : Nat) (w0 : World) :
    final_world (LocalGatherComm.ctor env planfile_name num_gpu srcs srcs_lens send_counts dst
      dst_len w0) =
      final_world (construct env Role.gather planfile_name num_gpu send_counts w0) := by
  unfold LocalGatherComm.ctor
  cases construct env Role.gather planfile_name num_gpu send_counts w0 with
  | error x => rfl
  | ok x => rfl

theorem scatter_ctor_final_world {Plan : Type} (env : Env Plan) (planfile_name : String)
    (num_gpu : Nat) (src : Ptr) (src_len : Nat) (send_counts : List Nat) (dsts : List Ptr)
    (dsts_lens : List Nat) (w0 : World) :
    final_world (LocalScatterComm.ctor env planfile_name num_gpu src src_len send_counts dsts
      dsts_lens w0) =
      final_world (construct env Role.scatter planfile_name num_gpu send_counts w0) := by
  unfold LocalScatterComm.ctor
  cases construct env Role.scatter planfile_name num_gpu send_counts w0 with
  | error x => rfl
  | ok x => rfl

theorem emitted_of_trace_eq (w0 w : World) (t : List Event) (h : w.trace = w0.trace ++ t) :
    emitted w0 w = t := by
  simp [emitted, h]

/-- The trace of a returning constructor holds no failed allocation. -/
theorem ctor_trace_no_failed_malloc {Plan : Type} (env : Env Plan) (role : Role)
    (planfile_name : String) (num_gpu : Nat) (send_counts lens : List Nat) (bufs : List Ptr)
    (hb : bufs.length = num_gpu) (i bytes : Nat) :
    Event.cudaMalloc i bytes none ∉
      ctor_trace env role planfile_name num_gpu send_counts lens bufs := by
  intro h
  simp only [ctor_trace, List.mem_append, mem_loop_events] at h
  rcases h with (h | ⟨j, hj, h⟩) | h
  · simp [header_events] at h
  · simp only [step_events, List.mem_cons, List.mem_singleton, Event.cudaMalloc.injEq,
      List.not_mem_nil, or_false] at h
    rcases h with h | h | h
    · exact absurd h (by simp)
    · exact absurd h (by simp)
    · obtain ⟨-, -, h3⟩ := h
      rw [List.getElem?_eq_getElem (by omega)] at h3
      exact absurd h3 (by simp)
  · simp at h

/-- A failed allocation in the run of the constructor body rules out a return;
when the run is free of undefined behaviour it ends in `CUERR`. -/
theorem construct_failed_malloc {Plan : Type} (env : Env Plan) (role : Role)
    (planfile_name : String) (num_gpu : Nat) (send_counts : List Nat) (w0 : World)
    (i bytes : Nat)
    (h : Event.cudaMalloc i bytes none ∈
      emitted w0 (final_world (construct env role planfile_name num_gpu send_counts w0))) :
    (∃ x, construct env role planfile_name num_gpu send_counts w0 = .error x) ∧
    (num_gpu ≤ (env.calcBufferLengths role (env.verify_plan role
        (env.parse_plan planfile_name)) send_counts).length →
      num_gpu ≤ INT_MAX →
      ∃ w, construct env role planfile_name num_gpu send_counts w0 =
        .error (Failure.cuda_error, w)) := by
  have hnot : ∀ c w, construct env role planfile_name num_gpu send_counts w0 ≠ .ok (c, w) := by
    intro c w hc
    have post := construct_ok env _ _ _ _ _ c w hc
    rw [hc] at h
    simp only [final_world] at h
    rw [emitted_of_trace_eq w0 w _ post.trace_eq] at h
    exact ctor_trace_no_failed_malloc env role planfile_name num_gpu send_counts _ c.bufs_
      post.bufs_len i bytes h
  constructor
  · cases hc : construct env role planfile_name num_gpu send_counts w0 with
    | error x => exact ⟨x, rfl⟩
    | ok x => exact absurd hc (hnot x.1 x.2)
  · intro hlen hint
    by_cases hv : env.valid (checked_plan env role planfile_name) = true ∧
        env.num_gpus (checked_plan env role planfile_name) = num_gpu
    · rcases construct_defined env role planfile_name num_gpu send_counts w0 hv.1 hv.2 hlen
        hint with ⟨c, w, hc⟩ | hw
      · exact absurd hc (hnot c w)
      · exact hw
    · have hv1 : env.valid (checked_plan env role planfile_name) = false ∨
          env.num_gpus (checked_plan env role planfile_name) ≠ num_gpu := by
        by_cases h1 : env.valid (checked_plan env role planfile_name) = true
        · right
          intro h2
          exact hv ⟨h1, h2⟩
        · left
          simpa using h1
      rw [construct_check_failed env role planfile_name num_gpu send_counts w0 hv1] at h
      simp only [final_world] at h
      rw [emitted_of_trace_eq w0 _ _ rfl] at h
      simp at h

/-! ## Operations on a constructed communicator -/

theorem drain_of_pending_nil (rt : Runtime) (h : rt.pending = []) : rt.drain = rt := by
  cases rt with
  | mk lastError mem pending =>
    simp only at h
    subst h
    rfl

theorem drain_drain (rt : Runtime) : rt.drain.drain = rt.drain :=
  drain_of_pending_nil rt.drain rfl

/-- The one call `LocalGatherComm::ExecAsync` issues, from the fields of the
engine. -/
theorem gather_ExecAsync_trace {Plan : Type} (s : LocalGatherComm Plan × World) :
    (LocalGatherComm.ExecAsync s).1 = s.1 ∧
    (LocalGatherComm.ExecAsync s).2.trace = s.2.trace ++
      [Event.gather_execAsync s.1.srcs_ s.1.srcs_lens_ s.1.dst_ s.1.dst_len_ s.1.bufs_
        s.1.bufs_lens_ s.1.send_counts_] :=
  ⟨rfl, rfl⟩

/-- The one call `LocalScatterComm::ExecAsync` issues, from the fields of the
engine. -/
theorem scatter_ExecAsync_trace {Plan : Type} (s : LocalScatterComm Plan × World) :
    (LocalScatterComm.ExecAsync s).1 = s.1 ∧
    (LocalScatterComm.ExecAsync s).2.trace = s.2.trace ++
      [Event.scatter_execAsync s.1.src_ s.1.src_len_ s.1.dsts_ s.1.dsts_lens_ s.1.bufs_
        s.1.bufs_lens_ s.1.send_counts_] :=
  ⟨rfl, rfl⟩

/-- Any sequence of operations on a gather communicator keeps the engine and
adds only `sync` calls and `execAsync` calls with the engine's fields. -/
theorem gather_run_trace {Plan : Type} (ops : List Op) :
    ∀ s : LocalGatherComm Plan × World,
      (LocalGatherComm.run s ops).1 = s.1 ∧
      ∃ post, (LocalGatherComm.run s ops).2.trace = s.2.trace ++ post ∧
        ∀ ev, ev ∈ post →
          ev = Event.sync s.1.gather_.role ∨
          ev = Event.gather_execAsync s.1.srcs_ s.1.srcs_lens_ s.1.dst_ s.1.dst_len_ s.1.bufs_
            s.1.bufs_lens_ s.1.send_counts_ := by
  induction ops with
  | nil =>
    intro s
    exact ⟨rfl, [], by simp [LocalGatherComm.run], by simp⟩
  | cons op ops ih =>
    intro s
    cases op with
    | ExecAsync =>
      obtain ⟨h1, post, h2, h3⟩ := ih (LocalGatherComm.ExecAsync s)
      refine ⟨h1, Event.gather_execAsync s.1.srcs_ s.1.srcs_lens_ s.1.dst_ s.1.dst_len_ s.1.bufs_
        s.1.bufs_lens_ s.1.send_counts_ :: post, ?_, ?_⟩
      · simp only [LocalGatherComm.run]
        rw [h2, (gather_ExecAsync_trace s).2]
        simp
      · intro ev hev
        rcases List.mem_cons.mp hev with h | h
        · right; exact h
        · exact h3 ev h
    | Sync =>
      obtain ⟨h1, post, h2, h3⟩ := ih (LocalGatherComm.Sync s)
      refine ⟨h1, Event.sync s.1.gather_.role :: post, ?_, ?_⟩
      · simp only [LocalGatherComm.run]
        rw [h2]
        simp [LocalGatherComm.Sync, collective_t.sync]
      · intro ev hev
        rcases List.mem_cons.mp hev with h | h
        · left; exact h
        · exact h3 ev h

/-- Any sequence of operations on a scatter communicator keeps the engine and
adds only `sync` calls and `execAsync` calls with the engine's fields. -/
theorem scatter_run_trace {Plan : Type} (ops : List Op) :
    ∀ s : LocalScatterComm Plan × World,
      (LocalScatterComm.run s ops).1 = s.1 ∧
      ∃ post, (LocalScatterComm.run s ops).2.trace = s.2.trace ++ post ∧
        ∀ ev, ev ∈ post →
          ev = Event.sync s.1.scatter_.role ∨
          ev = Event.scatter_execAsync s.1.src_ s.1.src_len_ s.1.dsts_ s.1.dsts_lens_ s.1.bufs_
            s.1.bufs_lens_ s.1.send_counts_ := by
  induction ops with
  | nil =>
    intro s
    exact ⟨rfl, [], by simp [LocalScatterComm.run], by simp⟩
  | cons op ops ih =>
    intro s
    cases op with
    | ExecAsync =>
      obtain ⟨h1, post, h2, h3⟩ := ih (LocalScatterComm.ExecAsync s)
      refine ⟨h1, Event.scatter_execAsync s.1.src_ s.1.src_len_ s.1.dsts_ s.1.dsts_lens_
        s.1.bufs_ s.1.bufs_lens_ s.1.send_counts_ :: post, ?_, ?_⟩
      · simp only [LocalScatterComm.run]
        rw [h2, (scatter_ExecAsync_trace s).2]
        simp
      · intro ev hev
        rcases List.mem_cons.mp hev with h | h
        · right; exact h
        · exact h3 ev h
    | Sync =>
      obtain ⟨h1, post, h2, h3⟩ := ih (LocalScatterComm.Sync s)
      refine ⟨h1, Event.sync s.1.scatter_.role :: post, ?_, ?_⟩
      · simp only [LocalScatterComm.run]
        rw [h2]
        simp [LocalScatterComm.Sync, collective_t.sync]
      · intro ev hev
        rcases List.mem_cons.mp hev with h | h
        · left; exact h
        · exact h3 ev h

/-- The allocation of every slot is in the trace of a returning constructor,
with the byte count of the recorded length and the handle stored in `bufs_`. -/
theorem ctor_trace_malloc {Plan : Type} (env : Env Plan) (role : Role)
    (planfile_name : String) (num_gpu : Nat) (send_counts lens : List Nat) (bufs : List Ptr)
    (hb : bufs.length = num_gpu) (hl : num_gpu ≤ lens.length) (i : Nat) (hi : i < num_gpu) :
    ∃ len p, lens[i]? = some len ∧ bufs[i]? = some p ∧
      Event.cudaMalloc i (alloc_bytes len) (some p) ∈
        ctor_trace env role planfile_name num_gpu send_counts lens bufs := by
  have h1 : i < lens.length := by omega
  have h2 : i < bufs.length := by omega
  refine ⟨lens[i], bufs[i], List.getElem?_eq_getElem h1, List.getElem?_eq_getElem h2, ?_⟩
  simp only [ctor_trace, List.mem_append, mem_loop_events]
  left; right
  refine ⟨i, hi, ?_⟩
  simp [step_events, List.getD_eq_getElem?_getD, List.getElem?_eq_getElem h1,
    List.getElem?_eq_getElem h2]

theorem allocations_loop_events (device_ids lens : List Nat) (res : Nat → Option Ptr)
    (n : Nat) : (allocations (loop_events device_ids lens res n)).length = n := by
  induction n with
  | zero => simp [loop_events, allocations]
  | succ n ih =>
    rw [loop_events_succ]
    unfold allocations at ih ⊢
    rw [List.filter_append, List.length_append, ih]
    simp [step_events, Event.is_cudaMalloc]

/-- The calls of a returning constructor before its last one: no barrier, no
`execAsync`, and one allocation per device. -/
theorem ctor_trace_shape {Plan : Type} (env : Env Plan) (role : Role)
    (planfile_name : String) (num_gpu : Nat) (send_counts lens : List Nat) (bufs : List Ptr) :
    ∃ pre, ctor_trace env role planfile_name num_gpu send_counts lens bufs =
        pre ++ [Event.sync_hard] ∧
      Event.sync_hard ∉ pre ∧ (∀ ev, ev ∈ pre → ev.is_execAsync = false) ∧
      (allocations pre).length = num_gpu := by
  refine ⟨header_events role planfile_name num_gpu send_counts lens ++
    loop_events ((List.range num_gpu).map env.device_id) lens (fun i => bufs[i]?) num_gpu ++
    [Event.CUERR], ?_, ?_, ?_, ?_⟩
  · simp [ctor_trace, List.append_assoc]
  · intro h
    simp only [List.mem_append, mem_loop_events] at h
    rcases h with (h | ⟨j, -, h⟩) | h
    · simp [header_events] at h
    · simp [step_events] at h
    · simp at h
  · intro ev h
    simp only [List.mem_append, mem_loop_events] at h
    rcases h with (h | ⟨j, -, h⟩) | h
    · simp only [header_events, List.mem_cons, List.mem_singleton, List.not_mem_nil,
        or_false] at h
      rcases h with h | h | h | h | h | h <;> subst h <;> rfl
    · simp only [step_events, List.mem_cons, List.mem_singleton, List.not_mem_nil,
        or_false] at h
      rcases h with h | h | h <;> subst h <;> rfl
    · simp only [List.mem_singleton] at h
      subst h
      rfl
  · unfold allocations
    rw [List.filter_append, List.filter_append, List.length_append, List.length_append]
    have := allocations_loop_events ((List.range num_gpu).map env.device_id) lens
      (fun i => bufs[i]?) num_gpu
    unfold allocations at this
    rw [this]
    simp [header_events, Event.is_cudaMalloc]

/-- The loop part of the trace of a returning constructor, written out. -/
theorem loop_events_explicit {Plan : Type} (env : Env Plan) (num_gpu : Nat)
    (lens bufs_lens : List Nat) (bufs : List Ptr)
    (h : ∀ i, i < num_gpu → bufs_lens[i]? = lens[i]?) :
    loop_events ((List.range num_gpu).map env.device_id) lens (fun i => bufs[i]?) num_gpu =
      ((List.range num_gpu).map (fun i =>
        [Event.get_device_id i, Event.cudaSetDevice (env.device_id i),
         Event.cudaMalloc i (alloc_bytes (bufs_lens.getD i 0)) bufs[i]?])).flatten := by
  unfold loop_events
  congr 1
  apply List.map_congr_left
  intro i hi
  have hi1 := List.mem_range.mp hi
  have h1 : ((List.range num_gpu).map env.device_id).getD i 0 = env.device_id i := by
    rw [List.getD_eq_getElem?_getD, List.getElem?_map, List.getElem?_range hi1]
    rfl
  have h2 : lens.getD i 0 = bufs_lens.getD i 0 := by
    rw [List.getD_eq_getElem?_getD, List.getD_eq_getElem?_getD, h i hi1]
  rw [h1, h2]
  rfl

/-- Every `get_device_id` call of a returning constructor has an index below
`num_gpu`. -/
theorem ctor_trace_get_device_id {Plan : Type} (env : Env Plan) (role : Role)
    (planfile_name : String) (num_gpu : Nat) (send_counts lens : List Nat) (bufs : List Ptr)
    (g : Nat)
    (h : Event.get_device_id g ∈
      ctor_trace env role planfile_name num_gpu send_counts lens bufs) :
    g < num_gpu ∧ (context_t.create env num_gpu).get_device_id g = some (env.device_id g) := by
  simp only [ctor_trace, List.mem_append, mem_loop_events] at h
  rcases h with (h | ⟨j, hj, h⟩) | h
  · simp [header_events] at h
  · simp only [step_events, List.mem_cons, List.mem_singleton, Event.get_device_id.injEq,
      List.not_mem_nil, or_false] at h
    rcases h with h | h | h
    · subst h
      refine ⟨hj, ?_⟩
      simp [context_t.get_device_id, context_t.create, hj]
    · exact absurd h (by simp)
    · exact absurd h (by simp)
  · simp at h

theorem gather_ctor_cases {Plan : Type} (env : Env Plan) (planfile_name : String)
    (num_gpu : Nat) (srcs : List Ptr) (srcs_lens send_counts : List Nat) (dst : Ptr)
    (dst_len : Nat) (w0 : World) (f : Failure) (w : World)
    (h : LocalGatherComm.ctor env planfile_name num_gpu srcs srcs_lens send_counts dst dst_len
      w0 = .error (f, w)) :
    construct env Role.gather planfile_name num_gpu send_counts w0 = .error (f, w) := by
  unfold LocalGatherComm.ctor at h
  split at h
  · rename_i e he
    simp only [Except.error.injEq] at h
    rw [he, h]
  · exact absurd h (by simp)

theorem scatter_ctor_cases {Plan : Type} (env : Env Plan) (planfile_name : String)
    (num_gpu : Nat) (src : Ptr) (src_len : Nat) (send_counts : List Nat) (dsts : List Ptr)
    (dsts_lens : List Nat) (w0 : World) (f : Failure) (w : World)
    (h : LocalScatterComm.ctor env planfile_name num_gpu src src_len send_counts dsts dsts_lens
      w0 = .error (f, w)) :
    construct env Role.scatter planfile_name num_gpu send_counts w0 = .error (f, w) := by
  unfold LocalScatterComm.ctor at h
  split at h
  · rename_i e he
    simp only [Except.error.injEq] at h
    rw [he, h]
  · exact absurd h (by simp)

/-- With one length per device and a device count an `int` can hold, the only
ways the constructor body fails are a failed `CHECK` and `CUERR`. -/
theorem construct_failures {Plan : Type} (env : Env Plan) (role : Role)
    (planfile_name : String) (num_gpu : Nat) (send_counts : List Nat) (w0 : World)
    (hlen : (env.calcBufferLengths role (env.verify_plan role (env.parse_plan planfile_name))
      send_counts).length = num_gpu)
    (hint : num_gpu ≤ INT_MAX) (f : Failure) (w : World)
    (h : construct env role planfile_name num_gpu send_counts w0 = .error (f, w)) :
    f = Failure.check_failed ∨ f = Failure.cuda_error := by
  by_cases hv : env.valid (checked_plan env role planfile_name) = true ∧
      env.num_gpus (checked_plan env role planfile_name) = num_gpu
  · rcases construct_defined env role planfile_name num_gpu send_counts w0 hv.1 hv.2
      (Nat.le_of_eq hlen.symm) hint with ⟨c, w1, hc⟩ | ⟨w1, hw⟩
    · rw [hc] at h
      exact absurd h (by simp)
    · rw [hw] at h
      simp only [Except.error.injEq, Prod.mk.injEq] at h
      right
      exact h.1.symm
  · have hv1 : env.valid (checked_plan env role planfile_name) = false ∨
        env.num_gpus (checked_plan env role planfile_name) ≠ num_gpu := by
      by_cases h1 : env.valid (checked_plan env role planfile_name) = true
      · right
        intro h2
        exact hv ⟨h1, h2⟩
      · left
        simpa using h1
    rw [construct_check_failed env role planfile_name num_gpu send_counts w0 hv1] at h
    simp only [Except.error.injEq, Prod.mk.injEq] at h
    left
    exact h.1.symm

theorem alloc_bytes_exact (len : Nat) (h : len < 2 ^ 62) : alloc_bytes len = 4 * len := by
  unfold alloc_bytes sizeof_data_t SIZE_T_MOD
  apply Nat.mod_eq_of_lt
  omega

/-! ## Plan validation -/

/-- C1: for both communicators, a constructor that returns has seen
`valid()` true on the plan after the role's `verify_plan` and a device count
equal to `num_gpu`; and whenever `valid()` is false or the device count differs
from `num_gpu`, the constructor stops in a failed `CHECK` and returns nothing. -/
theorem ctor_returns_iff_plan_checked {Plan : Type} (env : Env Plan) (planfile_name : String)
    (num_gpu : Nat) (srcs : List Ptr) (srcs_lens send_counts : List Nat) (dst : Ptr)
    (dst_len : Nat) (src : Ptr) (src_len : Nat) (dsts : List Ptr) (dsts_lens : List Nat)
    (w0 : World) :
    (∀ e w, LocalGatherComm.ctor env planfile_name num_gpu srcs srcs_lens send_counts dst
        dst_len w0 = .ok (e, w) →
      env.valid (env.verify_plan Role.gather (env.parse_plan planfile_name)) = true ∧
      env.num_gpus (env.verify_plan Role.gather (env.parse_plan planfile_name)) = num_gpu) ∧
    (∀ e w, LocalScatterComm.ctor env planfile_name num_gpu src src_len send_counts dsts
        dsts_lens w0 = .ok (e, w) →
      env.valid (env.verify_plan Role.scatter (env.parse_plan planfile_name)) = true ∧
      env.num_gpus (env.verify_plan Role.scatter (env.parse_plan planfile_name)) = num_gpu) ∧
    ((env.valid (env.verify_plan Role.gather (env.parse_plan planfile_name)) = false ∨
        env.num_gpus (env.verify_plan Role.gather (env.parse_plan planfile_name)) ≠ num_gpu) →
      ∃ w, LocalGatherComm.ctor env planfile_name num_gpu srcs srcs_lens send_counts dst
        dst_len w0 = .error (Failure.check_failed, w)) ∧
    ((env.valid (env.verify_plan Role.scatter (env.parse_plan planfile_name)) = false ∨
        env.num_gpus (env.verify_plan Role.scatter (env.parse_plan planfile_name)) ≠ num_gpu) →
      ∃ w, LocalScatterComm.ctor env planfile_name num_gpu src src_len send_counts dsts
        dsts_lens w0 = .error (Failure.check_failed, w)) := by
  refine ⟨?_, ?_, ?_, ?_⟩
  · intro e w h
    obtain ⟨c, hc, -⟩ := gather_ctor_ok env _ _ _ _ _ _ _ _ e w h
    have post := construct_ok env _ _ _ _ _ c w hc
    exact ⟨post.valid, post.num_gpus⟩
  · intro e w h
    obtain ⟨c, hc, -⟩ := scatter_ctor_ok env _ _ _ _ _ _ _ _ e w h
    have post := construct_ok env _ _ _ _ _ c w hc
    exact ⟨post.valid, post.num_gpus⟩
  · intro h
    exact ⟨_, gather_ctor_error env _ _ _ _ _ _ _ _ _
      (construct_check_failed env Role.gather planfile_name num_gpu send_counts w0 h)⟩
  · intro h
    exact ⟨_, scatter_ctor_error env _ _ _ _ _ _ _ _ _
      (construct_check_failed env Role.scatter planfile_name num_gpu send_counts w0 h)⟩

/-- C1 at concrete inputs: the two-device plan with `num_gpu = 2` passes the
checks of both constructors, which return, and the four-device plan with
`num_gpu = 2` stops both of them. -/
theorem ctor_returns_iff_plan_checked_witness :
    ((∃ e w, LocalGatherComm.ctor sample_env "plan2.json" 2 [10, 11] [2, 2] [2, 2] 20 4
        sample_world = .ok (e, w)) ∧
      sample_env.valid (sample_env.verify_plan Role.gather (sample_env.parse_plan "plan2.json"))
        = true ∧
      sample_env.num_gpus (sample_env.verify_plan Role.gather
        (sample_env.parse_plan "plan2.json")) = 2) ∧
    ((∃ e w, LocalScatterComm.ctor sample_env "plan2.json" 2 30 4 [2, 2] [31, 32] [2, 2]
        sample_world = .ok (e, w)) ∧
      sample_env.valid (sample_env.verify_plan Role.scatter (sample_env.parse_plan "plan2.json"))
        = true ∧
      sample_env.num_gpus (sample_env.verify_plan Role.scatter
        (sample_env.parse_plan "plan2.json")) = 2) ∧
    (∃ w, LocalGatherComm.ctor sample_env "plan4.json" 2 [10, 11] [2, 2] [2, 2] 20 4
      sample_world = .error (Failure.check_failed, w)) ∧
    (∃ w, LocalScatterComm.ctor sample_env "plan4.json" 2 30 4 [2, 2] [31, 32] [2, 2]
      sample_world = .error (Failure.check_failed, w)) :=
  ⟨⟨⟨_, _, rfl⟩, (ctor_returns_iff_plan_checked sample_env "plan2.json" 2 [10, 11] [2, 2]
      [2, 2] 20 4 30 4 [31, 32] [2, 2] sample_world).1 _ _ rfl⟩,
   ⟨⟨_, _, rfl⟩, (ctor_returns_iff_plan_checked sample_env "plan2.json" 2 [10, 11] [2, 2]
      [2, 2] 20 4 30 4 [31, 32] [2, 2] sample_world).2.1 _ _ rfl⟩,
   (ctor_returns_iff_plan_checked sample_env "plan4.json" 2 [10, 11] [2, 2] [2, 2] 20 4
      30 4 [31, 32] [2, 2] sample_world).2.2.1 (Or.inr (by decide)),
   (ctor_returns_iff_plan_checked sample_env "plan4.json" 2 [10, 11] [2, 2] [2, 2] 20 4
      30 4 [31, 32] [2, 2] sample_world).2.2.2 (Or.inr (by decide))⟩

/-- C2: for both communicators, when the plan fails a check (`valid()` false,
or a device count different from `num_gpu`), the constructor stops having
called only `parse_plan` and `verify_plan`: the context is not created, the
runtime state is untouched and the list of device allocations is empty. -/
theorem ctor_check_failure_allocates_nothing {Plan : Type} (env : Env Plan)
    (planfile_name : String) (num_gpu : Nat) (srcs : List Ptr) (srcs_lens send_counts : List Nat)
    (dst : Ptr) (dst_len : Nat) (src : Ptr) (src_len : Nat) (dsts : List Ptr)
    (dsts_lens : List Nat) (w0 : World) :
    ((env.valid (env.verify_plan Role.gather (env.parse_plan planfile_name)) = false ∨
        env.num_gpus (env.verify_plan Role.gather (env.parse_plan planfile_name)) ≠ num_gpu) →
      ∃ w, LocalGatherComm.ctor env planfile_name num_gpu srcs srcs_lens send_counts dst
          dst_len w0 = .error (Failure.check_failed, w) ∧
        w.rt = w0.rt ∧
        emitted w0 w = [Event.parse_plan planfile_name, Event.verify_plan Role.gather] ∧
        Event.context_create num_gpu ∉ emitted w0 w ∧
        allocations (emitted w0 w) = []) ∧
    ((env.valid (env.verify_plan Role.scatter (env.parse_plan planfile_name)) = false ∨
        env.num_gpus (env.verify_plan Role.scatter (env.parse_plan planfile_name)) ≠ num_gpu) →
      ∃ w, LocalScatterComm.ctor env planfile_name num_gpu src src_len send_counts dsts
          dsts_lens w0 = .error (Failure.check_failed, w) ∧
        w.rt = w0.rt ∧
        emitted w0 w = [Event.parse_plan planfile_name, Event.verify_plan Role.scatter] ∧
        Event.context_create num_gpu ∉ emitted w0 w ∧
        allocations (emitted w0 w) = []) := by
  constructor
  · intro h
    refine ⟨_, gather_ctor_error env _ _ _ _ _ _ _ _ _
      (construct_check_failed env Role.gather planfile_name num_gpu send_counts w0 h), rfl, ?_⟩
    have hem : emitted w0 { rt := w0.rt, trace := w0.trace ++
        [Event.parse_plan planfile_name, Event.verify_plan Role.gather] } =
        [Event.parse_plan planfile_name, Event.verify_plan Role.gather] := by
      simp [emitted]
    rw [hem]
    simp [allocations, Event.is_cudaMalloc]
  · intro h
    refine ⟨_, scatter_ctor_error env _ _ _ _ _ _ _ _ _
      (construct_check_failed env Role.scatter planfile_name num_gpu send_counts w0 h), rfl, ?_⟩
    have hem : emitted w0 { rt := w0.rt, trace := w0.trace ++
        [Event.parse_plan planfile_name, Event.verify_plan Role.scatter] } =
        [Event.parse_plan planfile_name, Event.verify_plan Role.scatter] := by
      simp [emitted]
    rw [hem]
    simp [allocations, Event.is_cudaMalloc]

/-- C2 at the scenario of the specification: a plan built for 4 devices and
`num_gpu = 2`; both constructors stop and have allocated nothing. -/
theorem ctor_check_failure_allocates_nothing_witness :
    (∃ w, LocalGatherComm.ctor sample_env "plan4.json" 2 [10, 11] [2, 2] [2, 2] 20 4
        sample_world = .error (Failure.check_failed, w) ∧
      w.rt = sample_world.rt ∧
      emitted sample_world w = [Event.parse_plan "plan4.json", Event.verify_plan Role.gather] ∧
      Event.context_create 2 ∉ emitted sample_world w ∧
      allocations (emitted sample_world w) = []) ∧
    (∃ w, LocalScatterComm.ctor sample_env "plan4.json" 2 30 4 [2, 2] [31, 32] [2, 2]
        sample_world = .error (Failure.check_failed, w) ∧
      w.rt = sample_world.rt ∧
      emitted sample_world w = [Event.parse_plan "plan4.json", Event.verify_plan Role.scatter] ∧
      Event.context_create 2 ∉ emitted sample_world w ∧
      allocations (emitted sample_world w) = []) :=
  ⟨(ctor_check_failure_allocates_nothing sample_env "plan4.json" 2 [10, 11] [2, 2] [2, 2] 20 4
      30 4 [31, 32] [2, 2] sample_world).1 (Or.inr (by decide)),
   (ctor_check_failure_allocates_nothing sample_env "plan4.json" 2 [10, 11] [2, 2] [2, 2] 20 4
      30 4 [31, 32] [2, 2] sample_world).2 (Or.inr (by decide))⟩

/-! ## Staging buffers -/

/-- C3: for both communicators, after a constructor has returned for
`num_gpu` devices and send counts `c`, `bufs_` has exactly `num_gpu` handles,
`bufs_lens_` has exactly `num_gpu` lengths, and for every `i < num_gpu` entry
`i` of `calcBufferLengths(c)` exists and is the recorded length of buffer `i`. -/
theorem ctor_staging_lengths {Plan : Type} (env : Env Plan) (planfile_name : String)
    (num_gpu : Nat) (srcs : List Ptr) (srcs_lens send_counts : List Nat) (dst : Ptr)
    (dst_len : Nat) (src : Ptr) (src_len : Nat) (dsts : List Ptr) (dsts_lens : List Nat)
    (w0 : World) :
    (∀ e w, LocalGatherComm.ctor env planfile_name num_gpu srcs srcs_lens send_counts dst
        dst_len w0 = .ok (e, w) →
      e.bufs_.length = num_gpu ∧ e.bufs_lens_.length = num_gpu ∧
      ∀ i, i < num_gpu → ∃ len,
        (env.calcBufferLengths Role.gather
          (env.verify_plan Role.gather (env.parse_plan planfile_name)) send_counts)[i]? =
          some len ∧
        e.bufs_lens_[i]? = some len) ∧
    (∀ e w, LocalScatterComm.ctor env planfile_name num_gpu src src_len send_counts dsts
        dsts_lens w0 = .ok (e, w) →
      e.bufs_.length = num_gpu ∧ e.bufs_lens_.length = num_gpu ∧
      ∀ i, i < num_gpu → ∃ len,
        (env.calcBufferLengths Role.scatter
          (env.verify_plan Role.scatter (env.parse_plan planfile_name)) send_counts)[i]? =
          some len ∧
        e.bufs_lens_[i]? = some len) := by
  constructor
  · intro e w h
    obtain ⟨c, hc, he⟩ := gather_ctor_ok env _ _ _ _ _ _ _ _ e w h
    have post := construct_ok env _ _ _ _ _ c w hc
    subst he
    refine ⟨post.bufs_len, post.lens_len, ?_⟩
    intro i hi
    have hlt := Nat.lt_of_lt_of_le hi post.calc_len
    refine ⟨_, List.getElem?_eq_getElem hlt, ?_⟩
    have := post.lens_eq i hi
    rw [List.getElem?_eq_getElem hlt] at this
    exact this
  · intro e w h
    obtain ⟨c, hc, he⟩ := scatter_ctor_ok env _ _ _ _ _ _ _ _ e w h
    have post := construct_ok env _ _ _ _ _ c w hc
    subst he
    refine ⟨post.bufs_len, post.lens_len, ?_⟩
    intro i hi
    have hlt := Nat.lt_of_lt_of_le hi post.calc_len
    refine ⟨_, List.getElem?_eq_getElem hlt, ?_⟩
    have := post.lens_eq i hi
    rw [List.getElem?_eq_getElem hlt] at this
    exact this

/-- C3 at the two-device gather and scatter: two handles, two lengths, and the
length of each buffer is the entry of the computed lengths. -/
theorem ctor_staging_lengths_witness :
    (∃ e w, LocalGatherComm.ctor sample_env "plan2.json" 2 [10, 11] [2, 2] [2, 2] 20 4
        sample_world = .ok (e, w) ∧
      e.bufs_lens_ = [2, 2] ∧
      e.bufs_.length = 2 ∧ e.bufs_lens_.length = 2 ∧
      ∀ i, i < 2 → ∃ len,
        (sample_env.calcBufferLengths Role.gather
          (sample_env.verify_plan Role.gather (sample_env.parse_plan "plan2.json"))
          [2, 2])[i]? = some len ∧
        e.bufs_lens_[i]? = some len) ∧
    (∃ e w, LocalScatterComm.ctor sample_env "plan2.json" 2 30 4 [2, 2] [31, 32] [2, 2]
        sample_world = .ok (e, w) ∧
      e.bufs_lens_ = [2, 2] ∧
      e.bufs_.length = 2 ∧ e.bufs_lens_.length = 2 ∧
      ∀ i, i < 2 → ∃ len,
        (sample_env.calcBufferLengths Role.scatter
          (sample_env.verify_plan Role.scatter (sample_env.parse_plan "plan2.json"))
          [2, 2])[i]? = some len ∧
        e.bufs_lens_[i]? = some len) :=
  ⟨⟨_, _, rfl, by decide,
      (ctor_staging_lengths sample_env "plan2.json" 2 [10, 11] [2, 2] [2, 2] 20 4
        30 4 [31, 32] [2, 2] sample_world).1 _ _ rfl⟩,
   ⟨_, _, rfl, by decide,
      (ctor_staging_lengths sample_env "plan2.json" 2 [10, 11] [2, 2] [2, 2] 20 4
        30 4 [31, 32] [2, 2] sample_world).2 _ _ rfl⟩⟩

/-- C4: for both communicators, when the run of the constructor contains a
`cudaMalloc` for some slot `i` that failed (the first, a middle or the last
one), the constructor returns no engine; when in addition `calcBufferLengths`
gave at least one entry per device and `num_gpu` fits an `int` (no undefined
behaviour), the run ends in the fatal exit of `CUERR`. -/
theorem ctor_allocation_failure_is_fatal {Plan : Type} (env : Env Plan)
    (planfile_name : String) (num_gpu : Nat) (srcs : List Ptr) (srcs_lens send_counts : List Nat)
    (dst : Ptr) (dst_len : Nat) (src : Ptr) (src_len : Nat) (dsts : List Ptr)
    (dsts_lens : List Nat) (w0 : World) (i bytes : Nat) :
    (Event.cudaMalloc i bytes none ∈
        emitted w0 (final_world (LocalGatherComm.ctor env planfile_name num_gpu srcs srcs_lens
          send_counts dst dst_len w0)) →
      (∃ x, LocalGatherComm.ctor env planfile_name num_gpu srcs srcs_lens send_counts dst
        dst_len w0 = .error x) ∧
      (num_gpu ≤ (env.calcBufferLengths Role.gather (env.verify_plan Role.gather
          (env.parse_plan planfile_name)) send_counts).length →
        num_gpu ≤ INT_MAX →
        ∃ w, LocalGatherComm.ctor env planfile_name num_gpu srcs srcs_lens send_counts dst
          dst_len w0 = .error (Failure.cuda_error, w))) ∧
    (Event.cudaMalloc i bytes none ∈
        emitted w0 (final_world (LocalScatterComm.ctor env planfile_name num_gpu src src_len
          send_counts dsts dsts_lens w0)) →
      (∃ x, LocalScatterComm.ctor env planfile_name num_gpu src src_len send_counts dsts
        dsts_lens w0 = .error x) ∧
      (num_gpu ≤ (env.calcBufferLengths Role.scatter (env.verify_plan Role.scatter
          (env.parse_plan planfile_name)) send_counts).length →
        num_gpu ≤ INT_MAX →
        ∃ w, LocalScatterComm.ctor env planfile_name num_gpu src src_len send_counts dsts
          dsts_lens w0 = .error (Failure.cuda_error, w))) := by
  constructor
  · intro h
    rw [gather_ctor_final_world] at h
    obtain ⟨⟨x, hx⟩, h2⟩ := construct_failed_malloc env Role.gather planfile_name num_gpu
      send_counts w0 i bytes h
    refine ⟨⟨x, gather_ctor_error env _ _ _ _ _ _ _ _ _ hx⟩, ?_⟩
    intro hlen hint
    obtain ⟨w, hw⟩ := h2 hlen hint
    exact ⟨w, gather_ctor_error env _ _ _ _ _ _ _ _ _ hw⟩
  · intro h
    rw [scatter_ctor_final_world] at h
    obtain ⟨⟨x, hx⟩, h2⟩ := construct_failed_malloc env Role.scatter planfile_name num_gpu
      send_counts w0 i bytes h
    refine ⟨⟨x, scatter_ctor_error env _ _ _ _ _ _ _ _ _ hx⟩, ?_⟩
    intro hlen hint
    obtain ⟨w, hw⟩ := h2 hlen hint
    exact ⟨w, scatter_ctor_error env _ _ _ _ _ _ _ _ _ hw⟩

/-- C4 at a concrete input: three devices that cannot allocate more than 8
bytes and send counts `[2, 3, 1]`; the allocation of 12 bytes for the middle
slot fails, the loop goes on to slot 2, and both constructors end in `CUERR`. -/
theorem ctor_allocation_failure_is_fatal_witness :
    (Event.cudaMalloc 1 12 none ∈
        emitted sample_world (final_world (LocalGatherComm.ctor small_env "plan3.json" 3
          [10, 11, 12] [2, 3, 1] [2, 3, 1] 20 6 sample_world)) ∧
      Event.cudaMalloc 2 4 (some 114) ∈
        emitted sample_world (final_world (LocalGatherComm.ctor small_env "plan3.json" 3
          [10, 11, 12] [2, 3, 1] [2, 3, 1] 20 6 sample_world)) ∧
      ∃ w, LocalGatherComm.ctor small_env "plan3.json" 3 [10, 11, 12] [2, 3, 1] [2, 3, 1] 20 6
        sample_world = .error (Failure.cuda_error, w)) ∧
    (Event.cudaMalloc 1 12 none ∈
        emitted sample_world (final_world (LocalScatterComm.ctor small_env "plan3.json" 3
          30 6 [2, 3, 1] [31, 32, 33] [2, 3, 1] sample_world)) ∧
      ∃ w, LocalScatterComm.ctor small_env "plan3.json" 3 30 6 [2, 3, 1] [31, 32, 33] [2, 3, 1]
        sample_world = .error (Failure.cuda_error, w)) :=
  ⟨⟨by decide, by decide,
    ((ctor_allocation_failure_is_fatal small_env "plan3.json" 3 [10, 11, 12] [2, 3, 1]
      [2, 3, 1] 20 6 30 6 [31, 32, 33] [2, 3, 1] sample_world 1 12).1 (by decide)).2
      (by decide) (by decide)⟩,
   ⟨by decide,
    ((ctor_allocation_failure_is_fatal small_env "plan3.json" 3 [10, 11, 12] [2, 3, 1]
      [2, 3, 1] 20 6 30 6 [31, 32, 33] [2, 3, 1] sample_world 1 12).2 (by decide)).2
      (by decide) (by decide)⟩⟩

/-! ## ExecAsync and Sync -/

/-- C5: for both communicators, a constructed engine holds the buffers,
lengths and send counts given to the constructor and the staging buffers and
lengths allocated there; every `ExecAsync`, in any world, leaves the engine as
it is and issues exactly one `execAsync` with these arguments, and in every
sequence of operations each `execAsync` issued carries these same arguments. -/
theorem ExecAsync_reuses_bound_arguments {Plan : Type} (env : Env Plan)
    (planfile_name : String) (num_gpu : Nat) (srcs : List Ptr) (srcs_lens send_counts : List Nat)
    (dst : Ptr) (dst_len : Nat) (src : Ptr) (src_len : Nat) (dsts : List Ptr)
    (dsts_lens : List Nat) (w0 : World) :
    (∀ e w, LocalGatherComm.ctor env planfile_name num_gpu srcs srcs_lens send_counts dst
        dst_len w0 = .ok (e, w) →
      (∀ i, i < num_gpu → ∃ len p, e.bufs_lens_[i]? = some len ∧ e.bufs_[i]? = some p ∧
        Event.cudaMalloc i (alloc_bytes len) (some p) ∈ emitted w0 w) ∧
      (∀ w1, (LocalGatherComm.ExecAsync (e, w1)).1 = e ∧
        (LocalGatherComm.ExecAsync (e, w1)).2.trace = w1.trace ++
          [Event.gather_execAsync srcs srcs_lens dst dst_len e.bufs_ e.bufs_lens_
            send_counts]) ∧
      (∀ ops, (LocalGatherComm.run (e, w) ops).1 = e ∧
        ∀ ev, ev ∈ emitted w (LocalGatherComm.run (e, w) ops).2 → ev.is_execAsync = true →
          ev = Event.gather_execAsync srcs srcs_lens dst dst_len e.bufs_ e.bufs_lens_
            send_counts)) ∧
    (∀ e w, LocalScatterComm.ctor env planfile_name num_gpu src src_len send_counts dsts
        dsts_lens w0 = .ok (e, w) →
      (∀ i, i < num_gpu → ∃ len p, e.bufs_lens_[i]? = some len ∧ e.bufs_[i]? = some p ∧
        Event.cudaMalloc i (alloc_bytes len) (some p) ∈ emitted w0 w) ∧
      (∀ w1, (LocalScatterComm.ExecAsync (e, w1)).1 = e ∧
        (LocalScatterComm.ExecAsync (e, w1)).2.trace = w1.trace ++
          [Event.scatter_execAsync src src_len dsts dsts_lens e.bufs_ e.bufs_lens_
            send_counts]) ∧
      (∀ ops, (LocalScatterComm.run (e, w) ops).1 = e ∧
        ∀ ev, ev ∈ emitted w (LocalScatterComm.run (e, w) ops).2 → ev.is_execAsync = true →
          ev = Event.scatter_execAsync src src_len dsts dsts_lens e.bufs_ e.bufs_lens_
            send_counts)) := by
  constructor
  · intro e w h
    obtain ⟨c, hc, he⟩ := gather_ctor_ok env _ _ _ _ _ _ _ _ e w h
    have post := construct_ok env _ _ _ _ _ c w hc
    subst he
    refine ⟨?_, ?_, ?_⟩
    · intro i hi
      obtain ⟨len, p, h1, h2, h3⟩ := ctor_trace_malloc env Role.gather planfile_name num_gpu
        send_counts _ c.bufs_ post.bufs_len post.calc_len i hi
      rw [emitted_of_trace_eq w0 w _ post.trace_eq]
      exact ⟨len, p, (post.lens_eq i hi).trans h1, h2, h3⟩
    · intro w1
      exact ⟨rfl, rfl⟩
    · intro ops
      obtain ⟨h1, tail, h2, h3⟩ := gather_run_trace ops (_, w)
      refine ⟨h1, ?_⟩
      intro ev hev hex
      rw [emitted_of_trace_eq _ _ tail h2] at hev
      rcases h3 ev hev with h4 | h4
      · subst h4
        exact absurd hex (by simp [Event.is_execAsync])
      · exact h4
  · intro e w h
    obtain ⟨c, hc, he⟩ := scatter_ctor_ok env _ _ _ _ _ _ _ _ e w h
    have post := construct_ok env _ _ _ _ _ c w hc
    subst he
    refine ⟨?_, ?_, ?_⟩
    · intro i hi
      obtain ⟨len, p, h1, h2, h3⟩ := ctor_trace_malloc env Role.scatter planfile_name num_gpu
        send_counts _ c.bufs_ post.bufs_len post.calc_len i hi
      rw [emitted_of_trace_eq w0 w _ post.trace_eq]
      exact ⟨len, p, (post.lens_eq i hi).trans h1, h2, h3⟩
    · intro w1
      exact ⟨rfl, rfl⟩
    · intro ops
      obtain ⟨h1, tail, h2, h3⟩ := scatter_run_trace ops (_, w)
      refine ⟨h1, ?_⟩
      intro ev hev hex
      rw [emitted_of_trace_eq _ _ tail h2] at hev
      rcases h3 ev hev with h4 | h4
      · subst h4
        exact absurd hex (by simp [Event.is_execAsync])
      · exact h4

/-- C5 at the two-device gather and scatter: `ExecAsync` issues the arguments
of the constructor with the two allocated buffers, and two `ExecAsync` calls
with a `Sync` between them leave the engine as constructed. -/
theorem ExecAsync_reuses_bound_arguments_witness :
    (∃ e w, LocalGatherComm.ctor sample_env "plan2.json" 2 [10, 11] [2, 2] [2, 2] 20 4
        sample_world = .ok (e, w) ∧
      emitted w (LocalGatherComm.ExecAsync (e, w)).2 =
        [Event.gather_execAsync [10, 11] [2, 2] 20 4 [108, 111] [2, 2] [2, 2]] ∧
      (LocalGatherComm.run (e, w) [Op.ExecAsync, Op.Sync, Op.ExecAsync]).1 = e) ∧
    (∃ e w, LocalScatterComm.ctor sample_env "plan2.json" 2 30 4 [2, 2] [31, 32] [2, 2]
        sample_world = .ok (e, w) ∧
      emitted w (LocalScatterComm.ExecAsync (e, w)).2 =
        [Event.scatter_execAsync 30 4 [31, 32] [2, 2] [108, 111] [2, 2] [2, 2]] ∧
      (LocalScatterComm.run (e, w) [Op.ExecAsync, Op.Sync, Op.ExecAsync]).1 = e) :=
  ⟨⟨_, _, rfl, by decide,
    (((ExecAsync_reuses_bound_arguments sample_env "plan2.json" 2 [10, 11] [2, 2] [2, 2] 20 4
      30 4 [31, 32] [2, 2] sample_world).1 _ _ rfl).2.2
      [Op.ExecAsync, Op.Sync, Op.ExecAsync]).1⟩,
   ⟨_, _, rfl, by decide,
    (((ExecAsync_reuses_bound_arguments sample_env "plan2.json" 2 [10, 11] [2, 2] [2, 2] 20 4
      30 4 [31, 32] [2, 2] sample_world).2 _ _ rfl).2.2
      [Op.ExecAsync, Op.Sync, Op.ExecAsync]).1⟩⟩

/-- C7: for both communicators, a returning constructor calls `sync_hard`
exactly once: its calls are some calls `pre` followed by `sync_hard` as the last
one, where `pre` holds no `sync_hard` and no `execAsync` and holds all `num_gpu`
allocations; and whatever sequence of `ExecAsync` and `Sync` follows, its calls
come after the barrier and hold no `sync_hard`. -/
theorem ctor_barrier_once_and_last {Plan : Type} (env : Env Plan)
    (planfile_name : String) (num_gpu : Nat) (srcs : List Ptr) (srcs_lens send_counts : List Nat)
    (dst : Ptr) (dst_len : Nat) (src : Ptr) (src_len : Nat) (dsts : List Ptr)
    (dsts_lens : List Nat) (w0 : World) :
    (∀ e w, LocalGatherComm.ctor env planfile_name num_gpu srcs srcs_lens send_counts dst
        dst_len w0 = .ok (e, w) →
      (emitted w0 w).count Event.sync_hard = 1 ∧
      ∃ pre, emitted w0 w = pre ++ [Event.sync_hard] ∧ Event.sync_hard ∉ pre ∧
        (∀ ev, ev ∈ pre → ev.is_execAsync = false) ∧
        (allocations pre).length = num_gpu ∧
        ∀ ops, ∃ post,
          emitted w0 (LocalGatherComm.run (e, w) ops).2 = pre ++ [Event.sync_hard] ++ post ∧
          Event.sync_hard ∉ post) ∧
    (∀ e w, LocalScatterComm.ctor env planfile_name num_gpu src src_len send_counts dsts
        dsts_lens w0 = .ok (e, w) →
      (emitted w0 w).count Event.sync_hard = 1 ∧
      ∃ pre, emitted w0 w = pre ++ [Event.sync_hard] ∧ Event.sync_hard ∉ pre ∧
        (∀ ev, ev ∈ pre → ev.is_execAsync = false) ∧
        (allocations pre).length = num_gpu ∧
        ∀ ops, ∃ post,
          emitted w0 (LocalScatterComm.run (e, w) ops).2 = pre ++ [Event.sync_hard] ++ post ∧
          Event.sync_hard ∉ post) := by
  constructor
  · intro e w h
    obtain ⟨c, hc, -⟩ := gather_ctor_ok env _ _ _ _ _ _ _ _ e w h
    have post := construct_ok env _ _ _ _ _ c w hc
    obtain ⟨pre, h1, h2, h3, h4⟩ := ctor_trace_shape env Role.gather planfile_name num_gpu
      send_counts (env.calcBufferLengths Role.gather (checked_plan env Role.gather planfile_name)
        send_counts) c.bufs_
    have htr := post.trace_eq
    rw [h1] at htr
    refine ⟨?_, pre, emitted_of_trace_eq w0 w _ htr, h2, h3, h4, ?_⟩
    · rw [emitted_of_trace_eq w0 w _ htr, List.count_append, List.count_eq_zero.mpr h2]
      simp
    intro ops
    obtain ⟨-, tail, h5, h6⟩ := gather_run_trace ops (e, w)
    refine ⟨tail, ?_, ?_⟩
    · apply emitted_of_trace_eq
      rw [h5]
      simp only [htr, List.append_assoc]
    · intro h7
      rcases h6 _ h7 with h8 | h8 <;> exact absurd h8 (by simp)
  · intro e w h
    obtain ⟨c, hc, -⟩ := scatter_ctor_ok env _ _ _ _ _ _ _ _ e w h
    have post := construct_ok env _ _ _ _ _ c w hc
    obtain ⟨pre, h1, h2, h3, h4⟩ := ctor_trace_shape env Role.scatter planfile_name num_gpu
      send_counts (env.calcBufferLengths Role.scatter
        (checked_plan env Role.scatter planfile_name) send_counts) c.bufs_
    have htr := post.trace_eq
    rw [h1] at htr
    refine ⟨?_, pre, emitted_of_trace_eq w0 w _ htr, h2, h3, h4, ?_⟩
    · rw [emitted_of_trace_eq w0 w _ htr, List.count_append, List.count_eq_zero.mpr h2]
      simp
    intro ops
    obtain ⟨-, tail, h5, h6⟩ := scatter_run_trace ops (e, w)
    refine ⟨tail, ?_, ?_⟩
    · apply emitted_of_trace_eq
      rw [h5]
      simp only [htr, List.append_assoc]
    · intro h7
      rcases h6 _ h7 with h8 | h8 <;> exact absurd h8 (by simp)

/-- C7 at the two-device gather and scatter: the constructor run ends with the
barrier, and the barrier is its only one. -/
theorem ctor_barrier_once_and_last_witness :
    (∃ e w, LocalGatherComm.ctor sample_env "plan2.json" 2 [10, 11] [2, 2] [2, 2] 20 4
        sample_world = .ok (e, w) ∧
      (emitted sample_world w).count Event.sync_hard = 1 ∧
      ∃ pre, emitted sample_world w = pre ++ [Event.sync_hard] ∧ Event.sync_hard ∉ pre ∧
        (∀ ev, ev ∈ pre → ev.is_execAsync = false) ∧
        (allocations pre).length = 2 ∧
        ∀ ops, ∃ post,
          emitted sample_world (LocalGatherComm.run (e, w) ops).2 =
            pre ++ [Event.sync_hard] ++ post ∧
          Event.sync_hard ∉ post) ∧
    (∃ e w, LocalScatterComm.ctor sample_env "plan2.json" 2 30 4 [2, 2] [31, 32] [2, 2]
        sample_world = .ok (e, w) ∧
      (emitted sample_world w).count Event.sync_hard = 1 ∧
      ∃ pre, emitted sample_world w = pre ++ [Event.sync_hard] ∧ Event.sync_hard ∉ pre ∧
        (∀ ev, ev ∈ pre → ev.is_execAsync = false) ∧
        (allocations pre).length = 2 ∧
        ∀ ops, ∃ post,
          emitted sample_world (LocalScatterComm.run (e, w) ops).2 =
            pre ++ [Event.sync_hard] ++ post ∧
          Event.sync_hard ∉ post) :=
  ⟨⟨_, _, rfl,
    (ctor_barrier_once_and_last sample_env "plan2.json" 2 [10, 11] [2, 2] [2, 2] 20 4
      30 4 [31, 32] [2, 2] sample_world).1 _ _ rfl⟩,
   ⟨_, _, rfl,
    (ctor_barrier_once_and_last sample_env "plan2.json" 2 [10, 11] [2, 2] [2, 2] 20 4
      30 4 [31, 32] [2, 2] sample_world).2 _ _ rfl⟩⟩

/-- C6: for both communicators, `Sync` on a freshly constructed engine (no
`ExecAsync` before it) leaves the engine and the whole runtime state, all
buffers included, as they were; and after one `ExecAsync`, a second `Sync`
leaves the engine and the runtime state reached by the first. -/
theorem Sync_without_pending_is_noop {Plan : Type} (env : Env Plan)
    (planfile_name : String) (num_gpu : Nat) (srcs : List Ptr) (srcs_lens send_counts : List Nat)
    (dst : Ptr) (dst_len : Nat) (src : Ptr) (src_len : Nat) (dsts : List Ptr)
    (dsts_lens : List Nat) (w0 : World) :
    (∀ e w, LocalGatherComm.ctor env planfile_name num_gpu srcs srcs_lens send_counts dst
        dst_len w0 = .ok (e, w) →
      (LocalGatherComm.Sync (e, w)).1 = e ∧ (LocalGatherComm.Sync (e, w)).2.rt = w.rt ∧
      (LocalGatherComm.Sync (LocalGatherComm.Sync (LocalGatherComm.ExecAsync (e, w)))).1 =
        (LocalGatherComm.Sync (LocalGatherComm.ExecAsync (e, w))).1 ∧
      (LocalGatherComm.Sync (LocalGatherComm.Sync (LocalGatherComm.ExecAsync (e, w)))).2.rt =
        (LocalGatherComm.Sync (LocalGatherComm.ExecAsync (e, w))).2.rt) ∧
    (∀ e w, LocalScatterComm.ctor env planfile_name num_gpu src src_len send_counts dsts
        dsts_lens w0 = .ok (e, w) →
      (LocalScatterComm.Sync (e, w)).1 = e ∧ (LocalScatterComm.Sync (e, w)).2.rt = w.rt ∧
      (LocalScatterComm.Sync (LocalScatterComm.Sync (LocalScatterComm.ExecAsync (e, w)))).1 =
        (LocalScatterComm.Sync (LocalScatterComm.ExecAsync (e, w))).1 ∧
      (LocalScatterComm.Sync (LocalScatterComm.Sync (LocalScatterComm.ExecAsync (e, w)))).2.rt =
        (LocalScatterComm.Sync (LocalScatterComm.ExecAsync (e, w))).2.rt) := by
  constructor
  · intro e w h
    obtain ⟨c, hc, -⟩ := gather_ctor_ok env _ _ _ _ _ _ _ _ e w h
    have post := construct_ok env _ _ _ _ _ c w hc
    refine ⟨rfl, ?_, rfl, ?_⟩
    · exact drain_of_pending_nil w.rt post.pending_eq
    · exact drain_drain _
  · intro e w h
    obtain ⟨c, hc, -⟩ := scatter_ctor_ok env _ _ _ _ _ _ _ _ e w h
    have post := construct_ok env _ _ _ _ _ c w hc
    refine ⟨rfl, ?_, rfl, ?_⟩
    · exact drain_of_pending_nil w.rt post.pending_eq
    · exact drain_drain _

/-- C6 at the two-device gather and scatter: `Sync` right after construction
changes neither the engine nor the runtime state, and a second `Sync` after an
`ExecAsync` changes nothing either. -/
theorem Sync_without_pending_is_noop_witness :
    (∃ e w, LocalGatherComm.ctor sample_env "plan2.json" 2 [10, 11] [2, 2] [2, 2] 20 4
        sample_world = .ok (e, w) ∧
      (LocalGatherComm.Sync (e, w)).1 = e ∧ (LocalGatherComm.Sync (e, w)).2.rt = w.rt ∧
      (LocalGatherComm.Sync (LocalGatherComm.Sync (LocalGatherComm.ExecAsync (e, w)))).1 =
        (LocalGatherComm.Sync (LocalGatherComm.ExecAsync (e, w))).1 ∧
      (LocalGatherComm.Sync (LocalGatherComm.Sync (LocalGatherComm.ExecAsync (e, w)))).2.rt =
        (LocalGatherComm.Sync (LocalGatherComm.ExecAsync (e, w))).2.rt) ∧
    (∃ e w, LocalScatterComm.ctor sample_env "plan2.json" 2 30 4 [2, 2] [31, 32] [2, 2]
        sample_world = .ok (e, w) ∧
      (LocalScatterComm.Sync (e, w)).1 = e ∧ (LocalScatterComm.Sync (e, w)).2.rt = w.rt ∧
      (LocalScatterComm.Sync (LocalScatterComm.Sync (LocalScatterComm.ExecAsync (e, w)))).1 =
        (LocalScatterComm.Sync (LocalScatterComm.ExecAsync (e, w))).1 ∧
      (LocalScatterComm.Sync (LocalScatterComm.Sync (LocalScatterComm.ExecAsync (e, w)))).2.rt =
        (LocalScatterComm.Sync (LocalScatterComm.ExecAsync (e, w))).2.rt) :=
  ⟨⟨_, _, rfl,
    (Sync_without_pending_is_noop sample_env "plan2.json" 2 [10, 11] [2, 2] [2, 2] 20 4
      30 4 [31, 32] [2, 2] sample_world).1 _ _ rfl⟩,
   ⟨_, _, rfl,
    (Sync_without_pending_is_noop sample_env "plan2.json" 2 [10, 11] [2, 2] [2, 2] 20 4
      30 4 [31, 32] [2, 2] sample_world).2 _ _ rfl⟩⟩

/-- C8: on a constructed gather engine, `ExecAsync` followed by `Sync` leaves
in the destination buffer, from its start, the first `send_counts[i]` elements
of source `i` for the devices in index order (the sources as they were before
the call); the rest of the destination and the sources are as before, and
nothing is left pending. -/
theorem gather_delivers_sources_in_device_order {Plan : Type} (env : Env Plan)
    (planfile_name : String) (num_gpu : Nat) (srcs : List Ptr) (srcs_lens send_counts : List Nat)
    (dst : Ptr) (dst_len : Nat) (w0 : World) (e : LocalGatherComm Plan) (w : World)
    (h : LocalGatherComm.ctor env planfile_name num_gpu srcs srcs_lens send_counts dst dst_len
      w0 = .ok (e, w)) :
    (LocalGatherComm.Sync (LocalGatherComm.ExecAsync (e, w))).2.rt.mem dst =
        (List.zipWith (fun p c => (w.rt.mem p).take c) srcs send_counts).flatten ++
          (w.rt.mem dst).drop
            (List.zipWith (fun p c => (w.rt.mem p).take c) srcs send_counts).flatten.length ∧
    (∀ p, p ∈ srcs → p ≠ dst →
      (LocalGatherComm.Sync (LocalGatherComm.ExecAsync (e, w))).2.rt.mem p = w.rt.mem p) ∧
    (LocalGatherComm.Sync (LocalGatherComm.ExecAsync (e, w))).2.rt.pending = [] := by
  obtain ⟨c, hc, he⟩ := gather_ctor_ok env _ _ _ _ _ _ _ _ e w h
  have post := construct_ok env _ _ _ _ _ c w hc
  subst he
  have hp := post.pending_eq
  refine ⟨?_, ?_, rfl⟩
  · simp [LocalGatherComm.Sync, LocalGatherComm.ExecAsync, collective_t.sync,
      collective_t.gather_execAsync, Runtime.drain, hp, Transfer.apply, write, gathered]
  · intro p _ hq
    simp [LocalGatherComm.Sync, LocalGatherComm.ExecAsync, collective_t.sync,
      collective_t.gather_execAsync, Runtime.drain, hp, Transfer.apply, write, hq]

/-- C8 at the scenario of the specification: sources `[1, 2]` and `[3, 4]`,
send counts `[2, 2]`, destination of length 4; the destination holds
`[1, 2, 3, 4]`. -/
theorem gather_delivers_sources_in_device_order_witness :
    ∃ e w, LocalGatherComm.ctor sample_env "plan2.json" 2 [10, 11] [2, 2] [2, 2] 20 4
        sample_world = .ok (e, w) ∧
      (LocalGatherComm.Sync (LocalGatherComm.ExecAsync (e, w))).2.rt.mem 20 = [1, 2, 3, 4] ∧
      (LocalGatherComm.Sync (LocalGatherComm.ExecAsync (e, w))).2.rt.mem 20 =
        (List.zipWith (fun p c => (w.rt.mem p).take c) [10, 11] [2, 2]).flatten ++
          (w.rt.mem 20).drop
            (List.zipWith (fun p c => (w.rt.mem p).take c) [10, 11] [2, 2]).flatten.length :=
  ⟨_, _, rfl, by decide,
    (gather_delivers_sources_in_device_order sample_env "plan2.json" 2 [10, 11] [2, 2] [2, 2]
      20 4 sample_world _ _ rfl).1⟩

/-- C9: for both communicators, the run of a returning constructor is the
calls before the loop, then for `i = 0, 1, ..., num_gpu-1` in this order the
three calls `get_device_id(i)`, `cudaSetDevice` of the id found and the
`cudaMalloc` for slot `i`, then `CUERR` and `sync_hard`; every index passed to
`get_device_id` is below `num_gpu` and the lookup succeeds; and when
`calcBufferLengths` returns one entry per device and `num_gpu` fits an `int`,
no run fails with an index out of range or other undefined behaviour. -/
theorem ctor_allocates_in_index_order {Plan : Type} (env : Env Plan)
    (planfile_name : String) (num_gpu : Nat) (srcs : List Ptr) (srcs_lens send_counts : List Nat)
    (dst : Ptr) (dst_len : Nat) (src : Ptr) (src_len : Nat) (dsts : List Ptr)
    (dsts_lens : List Nat) (w0 : World) :
    (∀ e w, LocalGatherComm.ctor env planfile_name num_gpu srcs srcs_lens send_counts dst
        dst_len w0 = .ok (e, w) →
      emitted w0 w =
        header_events Role.gather planfile_name num_gpu send_counts
          (env.calcBufferLengths Role.gather
            (env.verify_plan Role.gather (env.parse_plan planfile_name)) send_counts) ++
        ((List.range num_gpu).map (fun i =>
          [Event.get_device_id i, Event.cudaSetDevice (env.device_id i),
           Event.cudaMalloc i (alloc_bytes (e.bufs_lens_.getD i 0)) e.bufs_[i]?])).flatten ++
        [Event.CUERR, Event.sync_hard] ∧
      ∀ g, Event.get_device_id g ∈ emitted w0 w →
        g < num_gpu ∧ e.context_.get_device_id g = some (env.device_id g)) ∧
    (∀ e w, LocalScatterComm.ctor env planfile_name num_gpu src src_len send_counts dsts
        dsts_lens w0 = .ok (e, w) →
      emitted w0 w =
        header_events Role.scatter planfile_name num_gpu send_counts
          (env.calcBufferLengths Role.scatter
            (env.verify_plan Role.scatter (env.parse_plan planfile_name)) send_counts) ++
        ((List.range num_gpu).map (fun i =>
          [Event.get_device_id i, Event.cudaSetDevice (env.device_id i),
           Event.cudaMalloc i (alloc_bytes (e.bufs_lens_.getD i 0)) e.bufs_[i]?])).flatten ++
        [Event.CUERR, Event.sync_hard] ∧
      ∀ g, Event.get_device_id g ∈ emitted w0 w →
        g < num_gpu ∧ e.context_.get_device_id g = some (env.device_id g)) ∧
    ((env.calcBufferLengths Role.gather (env.verify_plan Role.gather
          (env.parse_plan planfile_name)) send_counts).length = num_gpu →
      num_gpu ≤ INT_MAX →
      ∀ f w, LocalGatherComm.ctor env planfile_name num_gpu srcs srcs_lens send_counts dst
          dst_len w0 = .error (f, w) →
        f ≠ Failure.undefined_behaviour ∧ f ≠ Failure.device_index_out_of_range) ∧
    ((env.calcBufferLengths Role.scatter (env.verify_plan Role.scatter
          (env.parse_plan planfile_name)) send_counts).length = num_gpu →
      num_gpu ≤ INT_MAX →
      ∀ f w, LocalScatterComm.ctor env planfile_name num_gpu src src_len send_counts dsts
          dsts_lens w0 = .error (f, w) →
        f ≠ Failure.undefined_behaviour ∧ f ≠ Failure.device_index_out_of_range) := by
  refine ⟨?_, ?_, ?_, ?_⟩
  · intro e w h
    obtain ⟨c, hc, he⟩ := gather_ctor_ok env _ _ _ _ _ _ _ _ e w h
    have post := construct_ok env _ _ _ _ _ c w hc
    subst he
    have hem := emitted_of_trace_eq w0 w _ post.trace_eq
    constructor
    · rw [hem]
      unfold ctor_trace
      rw [loop_events_explicit env num_gpu _ c.bufs_lens_ c.bufs_ post.lens_eq]
      rfl
    · intro g hg
      rw [hem] at hg
      have := ctor_trace_get_device_id env _ _ _ _ _ _ g hg
      rw [post.context_eq]
      exact this
  · intro e w h
    obtain ⟨c, hc, he⟩ := scatter_ctor_ok env _ _ _ _ _ _ _ _ e w h
    have post := construct_ok env _ _ _ _ _ c w hc
    subst he
    have hem := emitted_of_trace_eq w0 w _ post.trace_eq
    constructor
    · rw [hem]
      unfold ctor_trace
      rw [loop_events_explicit env num_gpu _ c.bufs_lens_ c.bufs_ post.lens_eq]
      rfl
    · intro g hg
      rw [hem] at hg
      have := ctor_trace_get_device_id env _ _ _ _ _ _ g hg
      rw [post.context_eq]
      exact this
  · intro hlen hint f w h
    have h1 := gather_ctor_cases env _ _ _ _ _ _ _ _ f w h
    rcases construct_failures env Role.gather planfile_name num_gpu send_counts w0 hlen hint
      f w h1 with h2 | h2 <;> subst h2 <;> exact ⟨by simp, by simp⟩
  · intro hlen hint f w h
    have h1 := scatter_ctor_cases env _ _ _ _ _ _ _ _ f w h
    rcases construct_failures env Role.scatter planfile_name num_gpu send_counts w0 hlen hint
      f w h1 with h2 | h2 <;> subst h2 <;> exact ⟨by simp, by simp⟩

/-- C9 at concrete inputs: the run of the two-device gather and scatter
constructors, call by call, and a three-device run that fails: its failure is
the exit of `CUERR`, not an index out of range. -/
theorem ctor_allocates_in_index_order_witness :
    (∃ e w, LocalGatherComm.ctor sample_env "plan2.json" 2 [10, 11] [2, 2] [2, 2] 20 4
        sample_world = .ok (e, w) ∧
      emitted sample_world w =
        [Event.parse_plan "plan2.json", Event.verify_plan Role.gather, Event.context_create 2,
         Event.collective_create Role.gather, Event.calcBufferLengths Role.gather [2, 2],
         Event.print [2, 2],
         Event.get_device_id 0, Event.cudaSetDevice 0, Event.cudaMalloc 0 8 (some 108),
         Event.get_device_id 1, Event.cudaSetDevice 1, Event.cudaMalloc 1 8 (some 111),
         Event.CUERR, Event.sync_hard] ∧
      ∀ g, Event.get_device_id g ∈ emitted sample_world w →
        g < 2 ∧ e.context_.get_device_id g = some (sample_env.device_id g)) ∧
    (∃ e w, LocalScatterComm.ctor sample_env "plan2.json" 2 30 4 [2, 2] [31, 32] [2, 2]
        sample_world = .ok (e, w) ∧
      emitted sample_world w =
        [Event.parse_plan "plan2.json", Event.verify_plan Role.scatter, Event.context_create 2,
         Event.collective_create Role.scatter, Event.calcBufferLengths Role.scatter [2, 2],
         Event.print [2, 2],
         Event.get_device_id 0, Event.cudaSetDevice 0, Event.cudaMalloc 0 8 (some 108),
         Event.get_device_id 1, Event.cudaSetDevice 1, Event.cudaMalloc 1 8 (some 111),
         Event.CUERR, Event.sync_hard] ∧
      ∀ g, Event.get_device_id g ∈ emitted sample_world w →
        g < 2 ∧ e.context_.get_device_id g = some (sample_env.device_id g)) ∧
    (∃ f w, LocalGatherComm.ctor small_env "plan3.json" 3 [10, 11, 12] [2, 3, 1] [2, 3, 1] 20 6
        sample_world = .error (f, w) ∧
      f ≠ Failure.undefined_behaviour ∧ f ≠ Failure.device_index_out_of_range) ∧
    (∃ f w, LocalScatterComm.ctor small_env "plan3.json" 3 30 6 [2, 3, 1] [31, 32, 33]
        [2, 3, 1] sample_world = .error (f, w) ∧
      f ≠ Failure.undefined_behaviour ∧ f ≠ Failure.device_index_out_of_range) :=
  ⟨⟨_, _, rfl, by decide,
    ((ctor_allocates_in_index_order sample_env "plan2.json" 2 [10, 11] [2, 2] [2, 2] 20 4
      30 4 [31, 32] [2, 2] sample_world).1 _ _ rfl).2⟩,
   ⟨_, _, rfl, by decide,
    ((ctor_allocates_in_index_order sample_env "plan2.json" 2 [10, 11] [2, 2] [2, 2] 20 4
      30 4 [31, 32] [2, 2] sample_world).2.1 _ _ rfl).2⟩,
   ⟨_, _, rfl,
    (ctor_allocates_in_index_order small_env "plan3.json" 3 [10, 11, 12] [2, 3, 1] [2, 3, 1]
      20 6 30 6 [31, 32, 33] [2, 3, 1] sample_world).2.2.1 (by decide) (by decide) _ _ rfl⟩,
   ⟨_, _, rfl,
    (ctor_allocates_in_index_order small_env "plan3.json" 3 [10, 11, 12] [2, 3, 1] [2, 3, 1]
      20 6 30 6 [31, 32, 33] [2, 3, 1] sample_world).2.2.2 (by decide) (by decide) _ _ rfl⟩⟩

/-- C10: the byte count requested for a staging buffer of recorded length
`len` is `(4 * len) mod 2 ^ 64`; it is the exact product `4 * len` whenever
`len < 2 ^ 62`; for `len = 2 ^ 62` it is smaller than `4 * len`; and in both
communicators the allocation for slot `i` of a returning constructor asks for
the byte count of the length that `bufs_lens_[i]` records. -/
theorem staging_byte_count_wraps {Plan : Type} (env : Env Plan)
    (planfile_name : String) (num_gpu : Nat) (srcs : List Ptr) (srcs_lens send_counts : List Nat)
    (dst : Ptr) (dst_len : Nat) (src : Ptr) (src_len : Nat) (dsts : List Ptr)
    (dsts_lens : List Nat) (w0 : World) :
    (∀ len, alloc_bytes len = (4 * len) % 2 ^ 64) ∧
    (∀ len, len < 2 ^ 62 → alloc_bytes len = 4 * len) ∧
    (2 ^ 62 < 2 ^ 64 ∧ alloc_bytes (2 ^ 62) < 4 * 2 ^ 62) ∧
    (∀ e w, LocalGatherComm.ctor env planfile_name num_gpu srcs srcs_lens send_counts dst
        dst_len w0 = .ok (e, w) →
      ∀ i, i < num_gpu → ∃ len p, e.bufs_lens_[i]? = some len ∧ e.bufs_[i]? = some p ∧
        Event.cudaMalloc i (alloc_bytes len) (some p) ∈ emitted w0 w) ∧
    (∀ e w, LocalScatterComm.ctor env planfile_name num_gpu src src_len send_counts dsts
        dsts_lens w0 = .ok (e, w) →
      ∀ i, i < num_gpu → ∃ len p, e.bufs_lens_[i]? = some len ∧ e.bufs_[i]? = some p ∧
        Event.cudaMalloc i (alloc_bytes len) (some p) ∈ emitted w0 w) := by
  refine ⟨fun len => rfl, alloc_bytes_exact, ⟨by norm_num, by decide⟩, ?_, ?_⟩
  · intro e w h i hi
    obtain ⟨c, hc, he⟩ := gather_ctor_ok env _ _ _ _ _ _ _ _ e w h
    have post := construct_ok env _ _ _ _ _ c w hc
    subst he
    obtain ⟨len, p, h1, h2, h3⟩ := ctor_trace_malloc env Role.gather planfile_name num_gpu
      send_counts _ c.bufs_ post.bufs_len post.calc_len i hi
    rw [emitted_of_trace_eq w0 w _ post.trace_eq]
    exact ⟨len, p, (post.lens_eq i hi).trans h1, h2, h3⟩
  · intro e w h i hi
    obtain ⟨c, hc, he⟩ := scatter_ctor_ok env _ _ _ _ _ _ _ _ e w h
    have post := construct_ok env _ _ _ _ _ c w hc
    subst he
    obtain ⟨len, p, h1, h2, h3⟩ := ctor_trace_malloc env Role.scatter planfile_name num_gpu
      send_counts _ c.bufs_ post.bufs_len post.calc_len i hi
    rw [emitted_of_trace_eq w0 w _ post.trace_eq]
    exact ⟨len, p, (post.lens_eq i hi).trans h1, h2, h3⟩

/-- C10 at a concrete input: a plan that asks for `2 ^ 62` elements per
device; both constructors return, `bufs_lens_` records `2 ^ 62` for both
slots, and the allocation for slot 0 asked for 0 bytes. -/
theorem staging_byte_count_wraps_witness :
    (∃ e w, LocalGatherComm.ctor huge_env "plan2.json" 2 [10, 11] [2, 2] [2, 2] 20 4
        sample_world = .ok (e, w) ∧
      e.bufs_lens_ = [2 ^ 62, 2 ^ 62] ∧
      Event.cudaMalloc 0 0 (some 108) ∈ emitted sample_world w ∧
      ∀ i, i < 2 → ∃ len p, e.bufs_lens_[i]? = some len ∧ e.bufs_[i]? = some p ∧
        Event.cudaMalloc i (alloc_bytes len) (some p) ∈ emitted sample_world w) ∧
    (∃ e w, LocalScatterComm.ctor huge_env "plan2.json" 2 30 4 [2, 2] [31, 32] [2, 2]
        sample_world = .ok (e, w) ∧
      e.bufs_lens_ = [2 ^ 62, 2 ^ 62] ∧
      Event.cudaMalloc 0 0 (some 108) ∈ emitted sample_world w ∧
      ∀ i, i < 2 → ∃ len p, e.bufs_lens_[i]? = some len ∧ e.bufs_[i]? = some p ∧
        Event.cudaMalloc i (alloc_bytes len) (some p) ∈ emitted sample_world w) :=
  ⟨⟨_, _, rfl, by decide, by decide,
    (staging_byte_count_wraps huge_env "plan2.json" 2 [10, 11] [2, 2] [2, 2] 20 4
      30 4 [31, 32] [2, 2] sample_world).2.2.2.1 _ _ rfl⟩,
   ⟨_, _, rfl, by decide, by decide,
    (staging_byte_count_wraps huge_env "plan2.json" 2 [10, 11] [2, 2] [2, 2] 20 4
      30 4 [31, 32] [2, 2] sample_world).2.2.2.2 _ _ rfl⟩⟩

end byteps.sparse
